import Mathlib

/-!
Verification development for the Docet ingestion pipeline
(`backend/app/ingestion/processor.py`, `backend/app/connectors/detector.py`,
`backend/app/connectors/swagger_connector.py`,
`backend/app/connectors/registry.py`,
`backend/app/connectors/ingestion_service.py`,
`backend/app/vector/chroma_service.py`, `backend/app/models/__init__.py`).

The Python code is shallowly embedded: pure functions become Lean
functions, Python exceptions become `Except PyErr`, Python `dict`s become
insertion-ordered association lists, and the results of external
collaborators (the HTTP client, BeautifulSoup element queries, the regex
engine for the one complex spec-URL pattern) are inputs to the embedded
functions.  `json.loads` is embedded as an executable JSON reader.
Numbers keep their source lexeme (no claim below inspects numeric values),
and the detector's float confidences are modelled as exact rationals: every
constant reached by a theorem below (0.95, 0.9, 0.0) is exactly
representable in binary floating point, so the model and CPython agree on
all compared values.
-/

set_option autoImplicit false

namespace Docet

/-- Python exceptions that the embedded code can raise. -/
inductive PyErr where
  | typeError (msg : String)
  | attributeError (msg : String)
  | exc (msg : String)
  deriving Repr, DecidableEq

/-- Message rendering, modelling Python `str(e)`. -/
def PyErr.render : PyErr → String
  | .typeError m => m
  | .attributeError m => m
  | .exc m => m

/-- Parsed JSON values, as produced by `json.loads`.  Numbers keep their
source lexeme; object fields are insertion ordered with duplicate keys
already merged (last occurrence wins), matching Python `dict` building. -/
inductive Json where
  | null
  | jbool (b : Bool)
  | jnum (lexeme : String)
  | jstr (s : String)
  | jarr (elems : List Json)
  | jobj (fields : List (String × Json))
  deriving Repr

mutual

/-- Structural equality on JSON values (Python `==` restricted to the
values `json.loads` can produce). -/
def Json.beq : Json → Json → Bool
  | .null, .null => true
  | .jbool a, .jbool b => a == b
  | .jnum a, .jnum b => a == b
  | .jstr a, .jstr b => a == b
  | .jarr a, .jarr b => Json.beqList a b
  | .jobj a, .jobj b => Json.beqFields a b
  | _, _ => false

/-- Elementwise equality of JSON arrays. -/
def Json.beqList : List Json → List Json → Bool
  | [], [] => true
  | a :: as', b :: bs' => Json.beq a b && Json.beqList as' bs'
  | _, _ => false

/-- Fieldwise equality of JSON objects (ordered, as built by the reader). -/
def Json.beqFields : List (String × Json) → List (String × Json) → Bool
  | [], [] => true
  | (k, v) :: as', (k2, v2) :: bs' => k == k2 && Json.beq v v2 && Json.beqFields as' bs'
  | _, _ => false

end

instance : BEq Json := ⟨Json.beq⟩

/-- Lookup in an object's field list (first match; duplicates were merged
by the reader, so at most one match exists). -/
def lookupField : List (String × Json) → String → Option Json
  | [], _ => none
  | (k, v) :: rest, key => if k = key then some v else lookupField rest key

/-- Insert a field, replacing an existing binding in place: Python `dict`
building semantics for duplicate keys in a JSON object literal. -/
def insertField : List (String × Json) → String → Json → List (String × Json)
  | [], k, v => [(k, v)]
  | (k0, v0) :: rest, k, v =>
    if k0 = k then (k0, v) :: rest else (k0, v0) :: insertField rest k v

/-- Whitespace accepted between JSON tokens by `json.loads`. -/
def jsonWs (c : Char) : Bool :=
  c = ' ' || c = Char.ofNat 9 || c = Char.ofNat 10 || c = Char.ofNat 13

/-- Drop leading JSON whitespace. -/
def skipWs : List Char → List Char
  | [] => []
  | c :: cs => if jsonWs c then skipWs cs else c :: cs

/-- Value of a hex digit, for `\uXXXX` escapes. -/
def hexVal (c : Char) : Option Nat :=
  let n := c.toNat
  if 48 ≤ n ∧ n ≤ 57 then some (n - 48)
  else if 97 ≤ n ∧ n ≤ 102 then some (n - 87)
  else if 65 ≤ n ∧ n ≤ 70 then some (n - 55)
  else none

/-- Read a JSON string body after the opening quote.  Strict mode: raw
control characters below 0x20 are rejected, like Python `json.loads`.
Surrogate pairs are kept as two code points (no claim inspects them). -/
def jStrBody : List Char → Option (List Char × List Char)
  | [] => none
  | c :: cs =>
    if c = '"' then some ([], cs)
    else if c = Char.ofNat 92 then
      match cs with
      | [] => none
      | e :: cs2 =>
        if e = '"' || e = Char.ofNat 92 || e = '/' then
          (jStrBody cs2).map (fun p => (e :: p.1, p.2))
        else if e = 'b' then (jStrBody cs2).map (fun p => (Char.ofNat 8 :: p.1, p.2))
        else if e = 'f' then (jStrBody cs2).map (fun p => (Char.ofNat 12 :: p.1, p.2))
        else if e = 'n' then (jStrBody cs2).map (fun p => (Char.ofNat 10 :: p.1, p.2))
        else if e = 'r' then (jStrBody cs2).map (fun p => (Char.ofNat 13 :: p.1, p.2))
        else if e = 't' then (jStrBody cs2).map (fun p => (Char.ofNat 9 :: p.1, p.2))
        else if e = 'u' then
          match cs2 with
          | h1 :: h2 :: h3 :: h4 :: rest =>
            match hexVal h1, hexVal h2, hexVal h3, hexVal h4 with
            | some a, some b, some c3, some d =>
              (jStrBody rest).map
                (fun p => (Char.ofNat (((a * 16 + b) * 16 + c3) * 16 + d) :: p.1, p.2))
            | _, _, _, _ => none
          | _ => none
        else none
    else if c.toNat < 32 then none
    else (jStrBody cs).map (fun p => (c :: p.1, p.2))

/-- Span of decimal digits. -/
def digitSpan (cs : List Char) : List Char × List Char :=
  (cs.takeWhile Char.isDigit, cs.dropWhile Char.isDigit)

/-- Read a JSON number lexeme (RFC 8259 grammar: no leading zeros, an
optional fraction and exponent), returning the lexeme and the rest. -/
def jNumLex (cs0 : List Char) : Option (List Char × List Char) :=
  let (sign, cs1) :=
    match cs0 with
    | '-' :: rest => (['-'], rest)
    | _ => (([] : List Char), cs0)
  match cs1 with
  | [] => none
  | d :: _ =>
    if ¬ d.isDigit then none
    else
      let (intPart, cs2) :=
        if d = '0' then ([d], cs1.tail)
        else digitSpan cs1
      let (fracPart, cs3) :=
        match cs2 with
        | '.' :: rest =>
          let (ds, r) := digitSpan rest
          if ds = [] then ([], cs2) else ('.' :: ds, r)
        | _ => (([] : List Char), cs2)
      let okFrac :=
        match cs2 with
        | '.' :: rest => !(digitSpan rest).1.isEmpty
        | _ => true
      let (expPart, cs4) :=
        match cs3 with
        | e :: rest =>
          if e = 'e' || e = 'E' then
            match rest with
            | s :: rest2 =>
              if s = '+' || s = '-' then
                let (ds, r) := digitSpan rest2
                if ds = [] then ([], cs3) else (e :: s :: ds, r)
              else
                let (ds, r) := digitSpan rest
                if ds = [] then ([], cs3) else (e :: ds, r)
            | [] => (([] : List Char), cs3)
          else (([] : List Char), cs3)
        | [] => (([] : List Char), cs3)
      let okExp :=
        match cs3 with
        | e :: rest =>
          if e = 'e' || e = 'E' then
            (match rest with
             | s :: rest2 =>
               if s = '+' || s = '-' then !(digitSpan rest2).1.isEmpty
               else !(digitSpan rest).1.isEmpty
             | [] => false)
          else true
        | [] => true
      if okFrac && okExp then some (sign ++ intPart ++ fracPart ++ expPart, cs4)
      else none

mutual

/-- Read one JSON value.  Fuel strictly exceeds the number of remaining
recursive steps for any input when seeded with `4 * length + 8`. -/
def jVal : Nat → List Char → Option (Json × List Char)
  | 0, _ => none
  | fuel + 1, cs0 =>
    match skipWs cs0 with
    | [] => none
    | c :: rest =>
      if c = '"' then (jStrBody rest).map (fun p => (Json.jstr p.1.asString, p.2))
      else if c = Char.ofNat 123 then jObjStart fuel rest
      else if c = '[' then jArrStart fuel rest
      else if c = 't' then
        match rest with
        | 'r' :: 'u' :: 'e' :: r => some (Json.jbool true, r)
        | _ => none
      else if c = 'f' then
        match rest with
        | 'a' :: 'l' :: 's' :: 'e' :: r => some (Json.jbool false, r)
        | _ => none
      else if c = 'n' then
        match rest with
        | 'u' :: 'l' :: 'l' :: r => some (Json.null, r)
        | _ => none
      else if c = 'N' then
        match rest with
        | 'a' :: 'N' :: r => some (Json.jnum "NaN", r)
        | _ => none
      else if c = 'I' then
        match rest with
        | 'n' :: 'f' :: 'i' :: 'n' :: 'i' :: 't' :: 'y' :: r => some (Json.jnum "Infinity", r)
        | _ => none
      else if c = '-' && (rest.headD ' ') = 'I' then
        match rest with
        | 'I' :: 'n' :: 'f' :: 'i' :: 'n' :: 'i' :: 't' :: 'y' :: r =>
          some (Json.jnum "-Infinity", r)
        | _ => none
      else
        match jNumLex (c :: rest) with
        | some (lex, r) => some (Json.jnum lex.asString, r)
        | none => none

/-- Read an object after the opening brace: either the closing brace or a
member list. -/
def jObjStart : Nat → List Char → Option (Json × List Char)
  | 0, _ => none
  | fuel + 1, cs =>
    match skipWs cs with
    | [] => none
    | c :: rest =>
      if c = Char.ofNat 125 then some (Json.jobj [], rest)
      else jMembers fuel (c :: rest) []

/-- Read object members (`"key": value` separated by commas) until the
closing brace. -/
def jMembers : Nat → List Char → List (String × Json) → Option (Json × List Char)
  | 0, _, _ => none
  | fuel + 1, cs, acc =>
    match skipWs cs with
    | '"' :: rest =>
      match jStrBody rest with
      | none => none
      | some (key, r1) =>
        match skipWs r1 with
        | ':' :: r2 =>
          match jVal fuel r2 with
          | none => none
          | some (v, r3) =>
            let acc2 := insertField acc key.asString v
            match skipWs r3 with
            | ',' :: r4 => jMembers fuel r4 acc2
            | c :: r4 => if c = Char.ofNat 125 then some (Json.jobj acc2, r4) else none
            | [] => none
        | _ => none
    | _ => none

/-- Read an array after the opening bracket. -/
def jArrStart : Nat → List Char → Option (Json × List Char)
  | 0, _ => none
  | fuel + 1, cs =>
    match skipWs cs with
    | [] => none
    | c :: rest =>
      if c = ']' then some (Json.jarr [], rest)
      else jElems fuel (c :: rest) []

/-- Read array elements separated by commas until the closing bracket. -/
def jElems : Nat → List Char → List Json → Option (Json × List Char)
  | 0, _, _ => none
  | fuel + 1, cs, acc =>
    match jVal fuel cs with
    | none => none
    | some (v, r1) =>
      match skipWs r1 with
      | ',' :: r2 => jElems fuel r2 (acc ++ [v])
      | ']' :: r2 => some (Json.jarr (acc ++ [v]), r2)
      | _ => none

end

/-- Embedded `json.loads`: reads one value and requires only whitespace to
remain. -/
def jsonLoads (s : String) : Option Json :=
  match jVal (4 * s.length + 8) s.data with
  | some (v, rest) => if skipWs rest = [] then some v else none
  | none => none

/-- Truthiness of a number lexeme: zero mantissas are falsy
(`0`, `-0.00`, `0e9`), everything else (including NaN and Infinity) truthy. -/
def numTruthy (lex : String) : Bool :=
  let mantissa := lex.data.takeWhile (fun c => c ≠ 'e' && c ≠ 'E')
  mantissa.any (fun c => '1' ≤ c && c ≤ '9')

/-- Python truthiness of a parsed JSON value. -/
def Json.truthy : Json → Bool
  | .null => false
  | .jbool b => b
  | .jnum lex => numTruthy lex
  | .jstr s => s ≠ ""
  | .jarr xs => ¬ xs.isEmpty
  | .jobj fs => ¬ fs.isEmpty

/-- Python `d.get(key, default)`: raises `AttributeError` on non-dicts. -/
def pyGetD (j : Json) (k : String) (d : Json) : Except PyErr Json :=
  match j with
  | .jobj fs => .ok ((lookupField fs k).getD d)
  | _ => .error (.attributeError ("object has no attribute " ++ "\x27get\x27 (" ++ k ++ ")"))

/-- Python `d.get(key)` with no default: `None` when missing. -/
def pyGet1 (j : Json) (k : String) : Except PyErr Json :=
  pyGetD j k Json.null

/-- Python `d.items()`: the ordered field list of a dict. -/
def pyItems (j : Json) : Except PyErr (List (String × Json)) :=
  match j with
  | .jobj fs => .ok fs
  | _ => .error (.attributeError "object has no attribute \x27items\x27")

/-- Python `list(d.keys())`. -/
def pyKeys (j : Json) : Except PyErr (List String) :=
  match j with
  | .jobj fs => .ok (fs.map Prod.fst)
  | _ => .error (.attributeError "object has no attribute \x27keys\x27")

/-- Python `len(x)` for parsed JSON values. -/
def pyLen (j : Json) : Except PyErr Nat :=
  match j with
  | .jobj fs => .ok fs.length
  | .jarr xs => .ok xs.length
  | .jstr s => .ok s.length
  | _ => .error (.typeError "object of this type has no len()")

/-- Characters lowered by the embedded `str.lower` (the indicator strings
compared after lowering are ASCII, where Python and this model agree). -/
def pyLowerChar (c : Char) : Char :=
  if 'A' ≤ c ∧ c ≤ 'Z' then Char.ofNat (c.toNat + 32) else c

/-- Embedded `str.lower` (ASCII range). -/
def pyLower (s : String) : String :=
  (s.data.map pyLowerChar).asString

/-- Embedded `str.upper` (ASCII range). -/
def pyUpperChar (c : Char) : Char :=
  if 'a' ≤ c ∧ c ≤ 'z' then Char.ofNat (c.toNat - 32) else c

/-- Embedded `str.upper` on strings. -/
def pyUpper (s : String) : String :=
  (s.data.map pyUpperChar).asString

/-- Test whether a list starts with the given needle. -/
def listStartsWith : List Char → List Char → Bool
  | _, [] => true
  | [], _ :: _ => false
  | h :: hs, n :: ns => h = n && listStartsWith hs ns

/-- Test whether the needle occurs contiguously in the haystack. -/
def listHasInfix : List Char → List Char → Bool
  | [], needle => needle.isEmpty
  | c :: hs, needle => listStartsWith (c :: hs) needle || listHasInfix hs needle

/-- Substring test, Python `needle in haystack` for strings. -/
def infixCheck (needle hay : String) : Bool :=
  listHasInfix hay.data needle.data

/-- Python `key in x` for parsed JSON values: dict-key membership, list
element equality, or substring search; `TypeError` on non-iterables. -/
def pyContains (j : Json) (k : String) : Except PyErr Bool :=
  match j with
  | .jobj fs => .ok ((lookupField fs k).isSome)
  | .jarr xs => .ok (xs.any (fun e => match e with | .jstr s => s = k | _ => false))
  | .jstr s => .ok (infixCheck k s)
  | _ => .error (.typeError "argument of type is not iterable")

mutual

/-- Python `repr` of a parsed JSON value (`True`, `None`, single-quoted
strings, `[1, 'a']`, `\x7b'k': v\x7d`).  Number lexemes are kept verbatim,
a documented approximation of float formatting. -/
def pyRepr : Json → String
  | .null => "None"
  | .jbool b => if b then "True" else "False"
  | .jnum lex => lex
  | .jstr s => "\x27" ++ s ++ "\x27"
  | .jarr xs => "[" ++ pyReprList xs ++ "]"
  | .jobj fs => "\x7b" ++ pyReprFields fs ++ "\x7d"

/-- Comma-joined element reprs. -/
def pyReprList : List Json → String
  | [] => ""
  | [x] => pyRepr x
  | x :: rest => pyRepr x ++ ", " ++ pyReprList rest

/-- Comma-joined `'key': value` reprs. -/
def pyReprFields : List (String × Json) → String
  | [] => ""
  | [(k, v)] => "\x27" ++ k ++ "\x27: " ++ pyRepr v
  | (k, v) :: rest => "\x27" ++ k ++ "\x27: " ++ pyRepr v ++ ", " ++ pyReprFields rest

end

/-- Python `str`/f-string rendering of a parsed JSON value: strings are
unquoted, containers use `repr`. -/
def pyStr : Json → String
  | .jstr s => s
  | other => pyRepr other

/-!  String utilities shared by the processor and the connectors.  Python's
`\s` character class (unicode mode) and `str.isspace` agree on the set
modelled by `pyIsSpaceCh`. -/

/-- Characters matched by Python `\s` / removed by `str.strip()`. -/
def pyIsSpaceCh (c : Char) : Bool :=
  c = ' ' || (9 ≤ c.toNat && c.toNat ≤ 13) ||
  (28 ≤ c.toNat && c.toNat ≤ 31) || c.toNat = 133 || c.toNat = 160 ||
  c.toNat = 5760 || (8192 ≤ c.toNat && c.toNat ≤ 8202) || c.toNat = 8232 ||
  c.toNat = 8233 || c.toNat = 8239 || c.toNat = 8287 || c.toNat = 12288

/-- Python `str.strip()`: drop whitespace from both ends. -/
def pyStripL (cs : List Char) : List Char :=
  ((cs.dropWhile pyIsSpaceCh).reverse.dropWhile pyIsSpaceCh).reverse

/-- Python `str.strip()` on `String`. -/
def pyStripS (s : String) : String :=
  (pyStripL s.data).asString

/-- Embedded `re.sub(r"\s+", " ", content)`: every maximal whitespace run
becomes a single space. -/
def collapseSpaces (cs : List Char) : List Char :=
  (cs.foldr
    (fun c acc =>
      if pyIsSpaceCh c then (if acc.2 then acc else (' ' :: acc.1, true))
      else (c :: acc.1, false))
    (([] : List Char), false)).1

/-- Membership in the control/extended range stripped by `_clean_content`
(`[\x00-\x08\x0b\x0c\x0e-\x1f\x7f-\xff]`). -/
def isStrippedCtl (c : Char) : Bool :=
  c.toNat ≤ 8 || c.toNat = 11 || c.toNat = 12 ||
  (14 ≤ c.toNat && c.toNat ≤ 31) || (127 ≤ c.toNat && c.toNat ≤ 255)

/-- Embedded removal of the control-character class. -/
def removeControl (cs : List Char) : List Char :=
  cs.filter (fun c => !isStrippedCtl c)

/-- Embedded `content.replace("\r\n", "\n")`. -/
def replaceCrlf : List Char → List Char
  | [] => []
  | [c] => [c]
  | c1 :: c2 :: rest =>
    if c1 = Char.ofNat 13 ∧ c2 = Char.ofNat 10 then Char.ofNat 10 :: replaceCrlf rest
    else c1 :: replaceCrlf (c2 :: rest)

/-- Embedded `content.replace("\r", "\n")`. -/
def replaceCr (cs : List Char) : List Char :=
  cs.map (fun c => if c = Char.ofNat 13 then Char.ofNat 10 else c)

/-- Embedded `DocumentProcessor._clean_content`: collapse whitespace runs,
strip control characters, normalise line endings, trim. -/
def cleanContentL (cs : List Char) : List Char :=
  pyStripL (replaceCr (replaceCrlf (removeControl (collapseSpaces cs))))

/-- Embedded `_clean_content` on `String`. -/
def cleanContentS (s : String) : String :=
  (cleanContentL s.data).asString

/-!  Small anchored/searching matchers for the version-label regexes used
by the connectors.  Each pattern is deterministic (digit runs are maximal
and followed by non-digit literals), so maximal munch coincides with the
backtracking engine. -/

/-- Embedded `re.match(r"v?\d+\.\d+(\.\d+)?", text)` viewed as a success
test: an optional `v`, one or more digits, a dot, one or more digits (the
optional trailing group never affects success). -/
def matchesVerPattern (s : String) : Bool :=
  let cs :=
    match s.data with
    | 'v' :: rest => rest
    | other => other
  match digitSpan cs with
  | (_ :: _, '.' :: r2) => !(digitSpan r2).1.isEmpty
  | _ => false

/-- Greedy `(?:\.\d+)*` tail: consume dot-digit groups while possible. -/
def dotDigitRuns : Nat → List Char → List Char × List Char
  | 0, cs => ([], cs)
  | fuel + 1, cs =>
    match cs with
    | '.' :: rest =>
      let (ds, r) := digitSpan rest
      if ds.isEmpty then ([], cs)
      else
        let (more, r2) := dotDigitRuns fuel r
        ('.' :: (ds ++ more), r2)
    | _ => ([], cs)

/-- Embedded `re.search(r"v(\d+(?:\.\d+)*)", s)`, returning group 1 of the
first match. -/
def searchVGroupAux : List Char → Option String
  | [] => none
  | 'v' :: rest =>
    let (ds, r) := digitSpan rest
    if ds.isEmpty then searchVGroupAux rest
    else some ((ds ++ (dotDigitRuns r.length r).1).asString)
  | _ :: rest => searchVGroupAux rest

/-- String wrapper for `searchVGroupAux`. -/
def searchVGroup (s : String) : Option String :=
  searchVGroupAux s.data

/-- Embedded `re.search(r"v(\d+)", s)`, returning group 1 of the first
match. -/
def searchVDigitsAux : List Char → Option String
  | [] => none
  | 'v' :: rest =>
    let (ds, _) := digitSpan rest
    if ds.isEmpty then searchVDigitsAux rest else some ds.asString
  | _ :: rest => searchVDigitsAux rest

/-- String wrapper for `searchVDigitsAux`. -/
def searchVDigits (s : String) : Option String :=
  searchVDigitsAux s.data

/-- Existence part of `re.search(r"v\d+\.\d+", s)`. -/
def hasVerNumAux : List Char → Bool
  | [] => false
  | 'v' :: rest =>
    (match digitSpan rest with
     | (_ :: _, '.' :: r2) => !(digitSpan r2).1.isEmpty
     | _ => false) || hasVerNumAux rest
  | _ :: rest => hasVerNumAux rest

/-- Embedded `re.search(r"v\d+\.\d+|version|release", text)` success test
(used on lowered nav-link text by the generic-docs recognizer). -/
def navVerMatch (s : String) : Bool :=
  hasVerNumAux s.data || infixCheck "version" s || infixCheck "release" s

/-!  Data model (`backend/app/models/__init__.py`).  Python metadata dicts
become insertion-ordered association lists of `PyVal`; assignment updates
an existing key in place and appends new keys, like `dict.__setitem__`. -/

/-- Values stored in metadata dicts by the embedded code. -/
inductive PyVal where
  | str (s : String)
  | int (n : Int)
  | bool (b : Bool)
  | pynone
  | json (j : Json)
  | listStr (xs : List String)
  deriving Repr

/-- Dict assignment `m[k] = v`: replace in place or append. -/
def setMeta : List (String × PyVal) → String → PyVal → List (String × PyVal)
  | [], k, v => [(k, v)]
  | (k0, v0) :: rest, k, v =>
    if k0 = k then (k0, v) :: rest else (k0, v0) :: setMeta rest k v

/-- Dict membership `k in m`. -/
def hasMetaKey (m : List (String × PyVal)) (k : String) : Bool :=
  m.any (fun p => p.1 = k)

/-- Dict merge `\x7b**a, **b\x7d`: keys of `b` override or extend `a`. -/
def mergeMeta (a b : List (String × PyVal)) : List (String × PyVal) :=
  b.foldl (fun acc p => setMeta acc p.1 p.2) a

/-- Embedded `models.Document` (the fields the pipeline reads; the
timestamp fields are never consulted by the embedded code). -/
structure Document where
  id : String
  title : String
  content : String
  url : String
  doc_type : String
  metadata : List (String × PyVal)
  deriving Repr

/-- Members of the `DocumentType` enum in `models/__init__.py`. -/
def validDocTypes : List String :=
  ["openapi_info", "openapi_endpoint", "swagger_html", "markdown", "html", "pdf", "docx"]

/-- Embedded pydantic construction of `Document`: `doc_type` must be a
member of the `DocumentType` enum, otherwise construction raises a
validation error. -/
def mkDocument (id title content url doc_type : String)
    (metadata : List (String × PyVal)) : Except PyErr Document :=
  if validDocTypes.contains doc_type then
    .ok { id := id, title := title, content := content, url := url,
          doc_type := doc_type, metadata := metadata }
  else
    .error (.exc ("1 validation error for Document: doc_type " ++ doc_type))

/-- Embedded `models.DocumentChunk` (pydantic construction of it never
fails for the field values the processor produces). -/
structure DocumentChunk where
  id : String
  document_id : String
  content : String
  chunk_index : Nat
  start_char : Int
  end_char : Int
  metadata : List (String × PyVal)
  deriving Repr

/-!  Chunker (`backend/app/ingestion/processor.py`). -/

/-- Processor configuration (`chunk_size`, `chunk_overlap`). -/
structure ProcCfg where
  chunkSize : Nat
  chunkOverlap : Nat
  deriving Repr, DecidableEq

/-- Defaults used by `DocumentProcessor()` as constructed inside
`IngestionService._store_documents`. -/
def procCfgDefault : ProcCfg := { chunkSize := 1000, chunkOverlap := 200 }

/-- Python slice `text[a:b]` for `0 ≤ a, b`. -/
def pySlice (cs : List Char) (a b : Nat) : List Char :=
  (cs.take b).drop a

/-- End position of the first `[.!?]\s+` match in a segment
(`match.end()` includes the greedy whitespace run). -/
def findSentenceEndAux : List Char → Nat → Option Nat
  | [], _ => none
  | c :: rest, i =>
    if (c = '.' || c = '!' || c = '?') && !(rest.takeWhile pyIsSpaceCh).isEmpty then
      some (i + 1 + (rest.takeWhile pyIsSpaceCh).length)
    else findSentenceEndAux rest (i + 1)

/-- Index of the last element satisfying `p`. -/
def lastIdxWhere (p : Char → Bool) (cs : List Char) : Option Nat :=
  (cs.foldl (fun acc c => (acc.1 + 1, if p c then some acc.1 else acc.2)) (0, none)).2

/-- End position of the first `\n\s*\n` match in a segment: at the first
newline whose following whitespace run contains another newline, the
greedy match ends just after the last such newline. -/
def findParaBreakAux : List Char → Nat → Option Nat
  | [], _ => none
  | c :: rest, i =>
    if c = Char.ofNat 10 then
      let run := rest.takeWhile pyIsSpaceCh
      match lastIdxWhere (fun x => x = Char.ofNat 10) run with
      | some j => some (i + 1 + j + 1)
      | none => findParaBreakAux rest (i + 1)
    else findParaBreakAux rest (i + 1)

/-- Embedded `DocumentProcessor._find_sentence_break`: first sentence
ending, else first paragraph break, else nearest preceding whitespace,
else the window end.  (Unreachable at runtime — see `splitText` — but
embedded for completeness.) -/
def findSentenceBreak (text : List Char) (start endp : Nat) : Nat :=
  let seg := pySlice text start endp
  match findSentenceEndAux seg 0 with
  | some e => start + e
  | none =>
    match findParaBreakAux seg 0 with
    | some e => start + e
    | none =>
      match lastIdxWhere pyIsSpaceCh seg with
      | some k => start + k
      | none => endp

/-- One pass of the `while start < len(text)` body of
`DocumentProcessor._split_text`.  The loop tail executes
`start = end - self.chunk_overlap` and then
`if start <= chunks and len(chunks) > 0:`, comparing the int `start`
against the list `chunks` — an unconditional `TypeError` in Python 3
(evaluated before the `len` guard, by `and` short-circuit order).  The
loop therefore never reaches a second iteration: it either breaks at
`end >= len(text)` or raises, so a single body pass embeds it exactly. -/
def splitStep (cfg : ProcCfg) (text : List Char) (start : Nat)
    (chunks : List (List Char)) : Except PyErr (List (List Char)) :=
  if start < text.length then
    let e0 := start + cfg.chunkSize
    let e :=
      if 0 < start ∧ e0 < text.length then
        let searchStart := max start (e0 - cfg.chunkOverlap)
        let sb := findSentenceBreak text searchStart e0
        if start < sb then sb else e0
      else e0
    let chunk := pyStripL (pySlice text start e)
    let chunks2 := if chunk.isEmpty then chunks else chunks ++ [chunk]
    if text.length ≤ e then .ok chunks2
    else
      .error (.typeError
        "\x27<=\x27 not supported between instances of \x27int\x27 and \x27list\x27")
  else .ok chunks

/-- Embedded `DocumentProcessor._split_text`. -/
def splitText (cfg : ProcCfg) (text : List Char) : Except PyErr (List (List Char)) :=
  if text.length ≤ cfg.chunkSize then .ok [text]
  else splitStep cfg text 0 []

/-- Chunk record built for the `i`-th chunk text of a document whose
cleaned content has length `cleanedLen` (`chunk_document` loop body). -/
def mkChunk (cfg : ProcCfg) (doc : Document) (cleanedLen : Nat) (i : Nat)
    (text : List Char) : DocumentChunk :=
  let startChar : Int := (i : Int) * ((cfg.chunkSize : Int) - (cfg.chunkOverlap : Int))
  let endChar : Int := startChar + (text.length : Int)
  { id := doc.id ++ "#chunk_" ++ toString i
    document_id := doc.id
    content := text.asString
    chunk_index := i
    start_char := max 0 startChar
    end_char := min (cleanedLen : Int) endChar
    metadata :=
      setMeta (setMeta (setMeta (setMeta doc.metadata
        "document_title" (.str doc.title))
        "document_url" (.str doc.url))
        "document_type" (.str doc.doc_type))
        "chunk_size" (.int (text.length : Int)) }

/-- Embedded `DocumentProcessor.chunk_document`. -/
def chunkDocument (cfg : ProcCfg) (doc : Document) : Except PyErr (List DocumentChunk) :=
  let cleaned := cleanContentL doc.content.data
  match splitText cfg cleaned with
  | .error e => .error e
  | .ok chunkTexts =>
    .ok (chunkTexts.enum.map (fun p => mkChunk cfg doc cleaned.length p.1 p.2))

/-- Embedded `DocumentProcessor.process_documents`. -/
def processDocuments (cfg : ProcCfg) (docs : List Document) :
    Except PyErr (List DocumentChunk) :=
  docs.foldlM (fun acc d => (chunkDocument cfg d).map (fun cs => acc ++ cs)) []

/-!  Type detector (`backend/app/connectors/detector.py`).

The single HTTP GET is an input (`Except String RespM`: either the raised
exception's message, or the response).  BeautifulSoup element queries over
the fetched HTML are inputs collected in `Soup`; substring checks run on
the real body text.  Confidences are exact rationals (see the header
note). -/

/-- Response of the one `client.get` after `raise_for_status`. -/
structure RespM where
  contentType : String
  body : String
  deriving Repr

/-- BeautifulSoup query results over the fetched page, supplied as input:
the title text, the option/link texts under version/spec-class selectors,
the flattened spec-URL regex matches over script bodies, and the link
texts inside nav/menu/sidebar elements. -/
structure Soup where
  title : Option String
  optionTexts : List String
  scriptSpecUrls : List String
  navLinkTexts : List String
  deriving Repr

/-- Result dict of `detect_document_type`. -/
structure DetectResult where
  type : String
  versions : List Json
  metadata : List (String × PyVal)
  confidence : ℚ
  deriving Repr

/-- Count how many of the indicator strings occur in the haystack. -/
def countIndicators (inds : List String) (hay : String) : Nat :=
  (inds.filter (fun i => infixCheck i hay)).length

/-- Model of `list(set(xs))`: duplicates removed (Python's set order is
hash-dependent; the embedding fixes first-occurrence order, and no claim
below depends on the order). -/
def dedupKeepFirst (xs : List String) : List String :=
  xs.foldl (fun acc s => if acc.contains s then acc else acc ++ [s]) []

/-- Embedded `_detect_swagger_ui`. -/
def detectSwaggerUi (url content : String) (soup : Soup) : DetectResult :=
  let _ := url
  let conf : ℚ := (countIndicators
    ["swagger-ui", "swagger-container", "swagger.json", "api-docs", "SwaggerUIBundle"]
    (pyLower content) : ℚ) * 0.2
  let versions := (soup.optionTexts.map pyStripS).filter matchesVerPattern
  let conf2 := if soup.scriptSpecUrls.isEmpty then conf else conf + 0.3
  let md0 : List (String × PyVal) :=
    if soup.scriptSpecUrls.isEmpty then []
    else [("spec_urls", .listStr soup.scriptSpecUrls)]
  let md :=
    match soup.title with
    | some t => setMeta md0 "title" (.str (pyStripS t))
    | none => md0
  { type := "swagger_ui"
    versions :=
      (fun vs => if vs.isEmpty then [Json.jstr "latest"] else vs.map Json.jstr)
        (dedupKeepFirst versions)
    metadata := md
    confidence := min conf2 1 }

/-- Embedded `_detect_redoc`. -/
def detectRedoc (url content : String) (soup : Soup) : DetectResult :=
  let _ := url
  let conf : ℚ := (countIndicators ["redoc", "ReDoc", "redoc-container"] content : ℚ) * 0.3
  { type := "redoc"
    versions := [Json.jstr "latest"]
    metadata := [("title", .str (soup.title.getD "ReDoc API Documentation"))]
    confidence := conf }

/-- Embedded `_detect_postman`. -/
def detectPostman (url content : String) (soup : Soup) : DetectResult :=
  let conf0 : ℚ := if infixCheck "postman" (pyLower url) then 0.4 else 0
  let conf := conf0 + (countIndicators
    ["postman", "documenter.getpostman.com", "postman-collection"] (pyLower content) : ℚ) * 0.2
  { type := "postman_docs"
    versions := [Json.jstr "latest"]
    metadata := [("title", .str (soup.title.getD "Postman Documentation"))]
    confidence := conf }

/-- Embedded `_detect_github_wiki`. -/
def detectGithubWiki (url content : String) (soup : Soup) : DetectResult :=
  let conf0 : ℚ := if infixCheck "github.com" url && infixCheck "/wiki" url then 0.8 else 0
  let conf := conf0 + (countIndicators ["github.com", "wiki", "octicon"] (pyLower content) : ℚ) * 0.1
  { type := "github_wiki"
    versions := [Json.jstr "latest"]
    metadata := [("title", .str (soup.title.getD "GitHub Wiki"))]
    confidence := min conf 1 }

/-- Embedded `_detect_gitbook`. -/
def detectGitbook (url content : String) (soup : Soup) : DetectResult :=
  let _ := url
  let conf : ℚ := (countIndicators ["gitbook", "GitBook", "gitbook.io"] content : ℚ) * 0.3
  { type := "gitbook"
    versions := [Json.jstr "latest"]
    metadata := [("title", .str (soup.title.getD "GitBook Documentation"))]
    confidence := conf }

/-- Embedded `_detect_notion`. -/
def detectNotion (url content : String) (soup : Soup) : DetectResult :=
  let conf0 : ℚ :=
    if infixCheck "notion.so" url || infixCheck "notion.site" url then 0.7 else 0
  let conf := conf0 + (countIndicators ["notion", "Notion"] content : ℚ) * 0.1
  { type := "notion"
    versions := [Json.jstr "latest"]
    metadata := [("title", .str (soup.title.getD "Notion Documentation"))]
    confidence := conf }

/-- Embedded `_detect_confluence` (note the dead `"Confluence"` indicator
checked against the lowered body, kept as written). -/
def detectConfluence (url content : String) (soup : Soup) : DetectResult :=
  let _ := url
  let conf : ℚ :=
    (countIndicators ["confluence", "Confluence", "atlassian"] (pyLower content) : ℚ) * 0.2
  { type := "confluence"
    versions := [Json.jstr "latest"]
    metadata := [("title", .str (soup.title.getD "Confluence Documentation"))]
    confidence := conf }

/-- Embedded `_detect_generic_docs`. -/
def detectGenericDocs (url content : String) (soup : Soup) : DetectResult :=
  let conf : ℚ :=
    ((["documentation", "docs", "api", "reference", "guide"].filter
      (fun i => infixCheck i (pyLower url) || infixCheck i (pyLower content))).length : ℚ) * 0.1
  let versions :=
    (soup.navLinkTexts.map (fun t => pyLower (pyStripS t))).filter navVerMatch
  { type := "generic_docs"
    versions :=
      if versions.isEmpty then [Json.jstr "latest"]
      else (dedupKeepFirst versions).map Json.jstr
    metadata := [("title", .str (soup.title.getD "Documentation"))]
    confidence := min conf 0.5 }

/-- Detector results in the fixed priority order of the `detectors`
list. -/
def runDetectors (url content : String) (soup : Soup) : List DetectResult :=
  [detectSwaggerUi url content soup,
   detectRedoc url content soup,
   detectPostman url content soup,
   detectGithubWiki url content soup,
   detectGitbook url content soup,
   detectNotion url content soup,
   detectConfluence url content soup,
   detectGenericDocs url content soup]

/-- Python `max(results, key=confidence)`: first result of maximal
confidence. -/
def maxByConfFirst (rs : List DetectResult) : Option DetectResult :=
  rs.foldl
    (fun acc r =>
      match acc with
      | none => some r
      | some b => if b.confidence < r.confidence then some r else acc)
    none

/-- Result dict `\x7btype: unknown, versions: [], metadata: \x7b\x7d,
confidence: 0.0\x7d` returned at the end of `_detect_json_api`. -/
def unknownEmptyResult : DetectResult :=
  { type := "unknown", versions := [], metadata := [], confidence := 0 }

/-- Embedded `_detect_json_api`.  A `json.JSONDecodeError` is caught
locally (falling through to the unknown result); attribute and type errors
from non-dict values propagate to the caller's handler. -/
def detectJsonApi (url content : String) : Except PyErr DetectResult := do
  let _ := url
  match jsonLoads content with
  | none => .ok unknownEmptyResult
  | some data =>
    let hasO ← pyContains data "openapi"
    let cond1 ← if hasO then pure true else pyContains data "swagger"
    if cond1 then do
      let info ← pyGetD data "info" (Json.jobj [])
      let version ← pyGetD info "version" (Json.jstr "1.0.0")
      let title ← pyGetD info "title" (Json.jstr "API Documentation")
      let desc ← pyGetD info "description" (Json.jstr "")
      let sw ← pyGetD data "swagger" (Json.jstr "unknown")
      let specVersion ← pyGetD data "openapi" sw
      let servers ← pyGetD data "servers" (Json.jarr [])
      let paths ← pyGetD data "paths" (Json.jobj [])
      let pathsCount ← pyLen paths
      .ok { type := "openapi_spec"
            versions := [version]
            metadata :=
              [("title", .json title), ("description", .json desc),
               ("spec_version", .json specVersion), ("version", .json version),
               ("servers", .json servers), ("paths_count", .int (pathsCount : Int))]
            confidence := 0.95 }
    else do
      let hasI ← pyContains data "info"
      let cond2 ← if hasI then pyContains data "item" else pure false
      if cond2 then do
        let info ← pyGetD data "info" (Json.jobj [])
        let version ← pyGetD info "version" (Json.jstr "1.0.0")
        let name ← pyGetD info "name" (Json.jstr "Postman Collection")
        let desc ← pyGetD info "description" (Json.jstr "")
        let pid ← pyGet1 info "_postman_id"
        let items ← pyGetD data "item" (Json.jarr [])
        let itemsCount ← pyLen items
        .ok { type := "postman_collection"
              versions := [version]
              metadata :=
                [("title", .json name), ("description", .json desc),
                 ("collection_id", .json pid), ("items_count", .int (itemsCount : Int))]
              confidence := 0.9 }
      else .ok unknownEmptyResult

/-- Embedded HTML branch of `detect_document_type`: early-accept the first
recognizer above 0.7, else the best positive result (ties to the earlier
recognizer), else the generic-HTML fallback. -/
def detectFromHtml (url content : String) (soup : Soup) : DetectResult :=
  let rs := runDetectors url content soup
  match rs.find? (fun r => 0.7 < r.confidence) with
  | some r => r
  | none =>
    match maxByConfFirst (rs.filter (fun r => 0 < r.confidence)) with
    | some best => best
    | none =>
      { type := "generic_html"
        versions := []
        metadata := [("title", .str (soup.title.getD "Unknown"))]
        confidence := 0.1 }

/-- Body of `detect_document_type` before its `except Exception` handler. -/
def detectDocumentTypeE (url : String) (fetch : Except String RespM)
    (soup : Soup) : Except PyErr DetectResult := do
  let resp ← match fetch with
    | .ok r => pure r
    | .error e => Except.error (PyErr.exc e)
  if infixCheck "application/json" (pyLower resp.contentType) then
    detectJsonApi url resp.body
  else
    .ok (detectFromHtml url resp.body soup)

/-- Embedded `DocumentTypeDetector.detect_document_type`: any exception is
recovered into the unknown result carrying the error message. -/
def detectDocumentType (url : String) (fetch : Except String RespM)
    (soup : Soup) : DetectResult :=
  match detectDocumentTypeE url fetch soup with
  | .ok r => r
  | .error e =>
    { type := "unknown", versions := [],
      metadata := [("error", .str e.render)], confidence := 0 }

/-!  Structured-spec connector
(`backend/app/connectors/swagger_connector.py`).  The dataclass
`VersionInfo` stores whatever value the spec supplied for
`info.version` (not necessarily a string), so the `version` field is a
`Json`; its optional metadata dict is an association list (`None ↦ []`).
BeautifulSoup queries, `urljoin`/`urlparse`, the one backtracking-heavy
spec-URL regex (its `findall` results per script tag) and the
`_test_spec_url` network probes are inputs in `UiCtx`. -/

/-- Embedded `base.VersionInfo`. -/
structure SwVersionInfo where
  version : Json
  url : String
  is_default : Bool
  metadata : List (String × PyVal)
  deriving Repr

/-- Embedded `_detect_versions_from_spec`: on a JSON decode failure the
local handler returns the empty list; attribute errors from non-dict
values propagate to `detect_versions`'s outer handler. -/
def detectVersionsFromSpec (selfUrl : String) (content : String) :
    Except PyErr (List SwVersionInfo) :=
  match jsonLoads content with
  | none => .ok []
  | some spec => do
    let info ← pyGetD spec "info" (Json.jobj [])
    let version ← pyGetD info "version" (Json.jstr "1.0.0")
    let title ← pyGet1 info "title"
    let desc ← pyGet1 info "description"
    let sw ← pyGet1 spec "swagger"
    let specVersion ← pyGetD spec "openapi" sw
    .ok [{ version := version, url := selfUrl, is_default := true,
           metadata := [("title", .json title), ("description", .json desc),
                        ("spec_version", .json specVersion)] }]

/-- Option/anchor/button element under a version/spec/api-class selector:
its text and its `href`/`value` attributes. -/
structure OptElem where
  text : String
  href : Option String
  value : Option String
  deriving Repr

/-- Script tag: its `.string` content (when any) and the `findall`
results of the embedded spec-URL pattern over it (regex engine modelled
as input). -/
structure ScriptElem where
  scriptString : Option String
  specMatches : List String
  deriving Repr

/-- Inputs of `_detect_versions_from_ui`: the source URL, its
scheme://netloc origin, `urljoin`, the BeautifulSoup query results, and
the `_test_spec_url` probe outcomes. -/
structure UiCtx where
  url : String
  origin : String
  joinUrl : String → String → String
  options : List OptElem
  scripts : List ScriptElem
  probe : String → Bool

/-- Python `a or b` on optional strings (empty string is falsy). -/
def pyOrStr : Option String → Option String → Option String
  | some s, b => if s = "" then b else some s
  | none, b => b

/-- Truthiness of an optional string. -/
def truthyStrOpt : Option String → Bool
  | some s => s ≠ ""
  | none => false

/-- Embedded `_resolve_spec_url`. -/
def resolveSpecUrl (ctx : UiCtx) (u : String) : String :=
  if u.startsWith "http" then u else ctx.joinUrl ctx.url u

/-- Append `VersionInfo(..., is_default=len(versions) == 0)`, the shape of
every append inside `_detect_versions_from_ui`. -/
def appendVI (acc : List SwVersionInfo) (version : Json) (url : String)
    (metadata : List (String × PyVal)) : List SwVersionInfo :=
  acc ++ [{ version := version, url := url, is_default := acc.isEmpty,
            metadata := metadata }]

/-- Version-selector scan (strategy 1 of `_detect_versions_from_ui`). -/
def uiStep1 (ctx : UiCtx) (acc : List SwVersionInfo) :
    List OptElem → List SwVersionInfo
  | [] => acc
  | o :: os =>
    let text := pyStripS o.text
    let href := pyOrStr o.href o.value
    if matchesVerPattern text then
      let specUrl :=
        if truthyStrOpt href then resolveSpecUrl ctx (href.getD "") else ctx.url
      uiStep1 ctx
        (appendVI acc (Json.jstr text) specUrl [("source", .str "version_selector")]) os
    else uiStep1 ctx acc os

/-- Spec URLs found in one script body (inner loop of strategy 2):
duplicate version labels are suppressed, first occurrence wins. -/
def uiStep2Urls (ctx : UiCtx) (acc : List SwVersionInfo) :
    List String → List SwVersionInfo
  | [] => acc
  | u :: us =>
    let specUrl := resolveSpecUrl ctx u
    let version := (searchVGroup specUrl).getD "latest"
    let acc2 :=
      if acc.any (fun v => v.version == Json.jstr version) then acc
      else appendVI acc (Json.jstr version) specUrl [("source", .str "javascript_config")]
    uiStep2Urls ctx acc2 us

/-- Script scan (strategy 2 of `_detect_versions_from_ui`). -/
def uiStep2 (ctx : UiCtx) (acc : List SwVersionInfo) :
    List ScriptElem → List SwVersionInfo
  | [] => acc
  | s :: ss =>
    let acc2 :=
      if truthyStrOpt s.scriptString then uiStep2Urls ctx acc s.specMatches else acc
    uiStep2 ctx acc2 ss

/-- Conventional spec paths probed by strategy 3. -/
def commonPaths : List String :=
  ["/swagger.json", "/openapi.json", "/api-docs",
   "/v1/swagger.json", "/v2/swagger.json", "/v3/swagger.json"]

/-- Common-path probing (strategy 3 of `_detect_versions_from_ui`). -/
def uiStep3 (ctx : UiCtx) (acc : List SwVersionInfo) :
    List String → List SwVersionInfo
  | [] => acc
  | p :: ps =>
    if ctx.probe (ctx.joinUrl ctx.origin p) then
      uiStep3 ctx
        (appendVI acc (Json.jstr ((searchVDigits p).getD "latest"))
          (ctx.joinUrl ctx.origin p) [("source", .str "common_paths")]) ps
    else uiStep3 ctx acc ps

/-- Embedded `_detect_versions_from_ui`: the three strategies in order
(strategy 3 only when nothing was found), then the fallback version. -/
def detectVersionsFromUi (ctx : UiCtx) : List SwVersionInfo :=
  let l1 := uiStep1 ctx [] ctx.options
  let l2 := uiStep2 ctx l1 ctx.scripts
  let l3 := if l2.isEmpty then uiStep3 ctx l2 commonPaths else l2
  if l3.isEmpty then
    [{ version := Json.jstr "latest", url := ctx.url, is_default := true,
       metadata := [("source", .str "fallback")] }]
  else l3

/-- Body of `SwaggerConnector.detect_versions` before its
`except Exception` handler. -/
def swDetectVersionsBody (ctx : UiCtx) (fetch : Except String RespM) :
    Except PyErr (List SwVersionInfo) := do
  let resp ← match fetch with
    | .ok r => pure r
    | .error e => Except.error (PyErr.exc e)
  if infixCheck "application/json" (pyLower resp.contentType) then
    detectVersionsFromSpec ctx.url resp.body
  else
    .ok (detectVersionsFromUi ctx)

/-- Embedded `SwaggerConnector.detect_versions`: any exception is
recovered into the single synthetic `latest` version. -/
def swDetectVersions (ctx : UiCtx) (fetch : Except String RespM) :
    List SwVersionInfo :=
  match swDetectVersionsBody ctx fetch with
  | .ok vs => vs
  | .error _ =>
    [{ version := Json.jstr "latest", url := ctx.url, is_default := true,
       metadata := [] }]

/-!  Document extraction of the structured-spec connector. -/

/-- Python `sep.join(parts)`. -/
def joinSep (sep : String) : List String → String
  | [] => ""
  | [x] => x
  | x :: rest => x ++ sep ++ joinSep sep rest

/-- Python iteration over a parsed JSON value (`for x in v`): list
elements, dict keys, string characters; `TypeError` otherwise. -/
def pyIter (j : Json) : Except PyErr (List Json) :=
  match j with
  | .jarr xs => .ok xs
  | .jobj fs => .ok (fs.map (fun p => Json.jstr p.1))
  | .jstr s => .ok (s.data.map (fun c => Json.jstr (String.mk [c])))
  | _ => .error (.typeError "object is not iterable")

/-- Embedded `_format_api_info` (note: the source file writes literal
`\n` two-character sequences — `"\\n"` in its Python strings — which the
embedding reproduces verbatim). -/
def formatApiInfo (info spec : Json) : Except PyErr String := do
  let titleJ ← pyGet1 info "title"
  let p1 := if titleJ.truthy then ["# " ++ pyStr titleJ] else []
  let descJ ← pyGet1 info "description"
  let p2 := if descJ.truthy then p1 ++ ["## Description\\n" ++ pyStr descJ] else p1
  let verJ ← pyGet1 info "version"
  let p3 := if verJ.truthy then p2 ++ ["**Version:** " ++ pyStr verJ] else p2
  let oaJ ← pyGet1 spec "openapi"
  let swJ ← pyGet1 spec "swagger"
  let p4 :=
    if oaJ.truthy then p3 ++ ["**OpenAPI Version:** " ++ pyStr oaJ]
    else if swJ.truthy then p3 ++ ["**Swagger Version:** " ++ pyStr swJ]
    else p3
  let contact ← pyGetD info "contact" (Json.jobj [])
  let p5 ←
    if contact.truthy then do
      let nameJ ← pyGet1 contact "name"
      let c1 := if nameJ.truthy then ["**Contact:** " ++ pyStr nameJ] else []
      let emailJ ← pyGet1 contact "email"
      let c2 := if emailJ.truthy then c1 ++ ["**Email:** " ++ pyStr emailJ] else c1
      let urlJ ← pyGet1 contact "url"
      let c3 := if urlJ.truthy then c2 ++ ["**URL:** " ++ pyStr urlJ] else c2
      pure (p4 ++ c3)
    else pure p4
  let license ← pyGetD info "license" (Json.jobj [])
  let p7 ←
    if license.truthy then do
      let nameJ ← pyGet1 license "name"
      let l1 := if nameJ.truthy then p5 ++ ["**License:** " ++ pyStr nameJ] else p5
      let urlJ ← pyGet1 license "url"
      pure (if urlJ.truthy then l1 ++ ["**License URL:** " ++ pyStr urlJ] else l1)
    else pure p5
  .ok (joinSep "\\n\\n" p7)

/-- Embedded `_format_server_info`. -/
def formatServerInfo (servers : Json) : Except PyErr String := do
  let elems ← pyIter servers
  let parts ← elems.foldlM
    (fun (acc : List String × Nat) server => do
      let i := acc.2
      let urlJ ← pyGetD server "url" (Json.jstr "N/A")
      let a1 := acc.1 ++ ["## Server " ++ toString i, "**URL:** " ++ pyStr urlJ]
      let descJ ← pyGet1 server "description"
      let a2 := if descJ.truthy then a1 ++ ["**Description:** " ++ pyStr descJ] else a1
      let vars ← pyGetD server "variables" (Json.jobj [])
      let a3 ←
        if vars.truthy then do
          let items ← pyItems vars
          items.foldlM
            (fun acc2 kv => do
              let descJ ← pyGetD kv.2 "description" (Json.jstr "No description")
              let defJ ← pyGetD kv.2 "default" (Json.jstr "No default")
              pure (acc2 ++ ["- " ++ kv.1 ++ ": " ++ pyStr descJ ++
                " (default: " ++ pyStr defJ ++ ")"]))
            (a2 ++ ["**Variables:**"])
        else pure a2
      pure (a3, i + 1))
    (["# API Servers"], 1)
  .ok (joinSep "\\n" parts.1)

/-- Embedded `_format_security_info`. -/
def formatSecurityInfo (securitySchemes : Json) : Except PyErr String := do
  let items ← pyItems securitySchemes
  let parts ← items.foldlM
    (fun (acc : List String) kv => do
      let typJ ← pyGetD kv.2 "type" (Json.jstr "Unknown")
      let a1 := acc ++ ["## " ++ kv.1, "**Type:** " ++ pyStr typJ]
      let descJ ← pyGet1 kv.2 "description"
      let a2 := if descJ.truthy then a1 ++ ["**Description:** " ++ pyStr descJ] else a1
      let schemeType ← pyGet1 kv.2 "type"
      if schemeType == Json.jstr "apiKey" then do
        let inJ ← pyGetD kv.2 "in" (Json.jstr "N/A")
        let nameJ ← pyGetD kv.2 "name" (Json.jstr "N/A")
        pure (a2 ++ ["**Location:** " ++ pyStr inJ,
                     "**Parameter Name:** " ++ pyStr nameJ])
      else if schemeType == Json.jstr "http" then do
        let schemeJ ← pyGetD kv.2 "scheme" (Json.jstr "N/A")
        let a3 := a2 ++ ["**Scheme:** " ++ pyStr schemeJ]
        let bfJ ← pyGet1 kv.2 "bearerFormat"
        pure (if bfJ.truthy then a3 ++ ["**Bearer Format:** " ++ pyStr bfJ] else a3)
      else if schemeType == Json.jstr "oauth2" then do
        let flows ← pyGetD kv.2 "flows" (Json.jobj [])
        if flows.truthy then do
          let flowItems ← pyItems flows
          flowItems.foldlM
            (fun acc2 fkv => do
              let authJ ← pyGetD fkv.2 "authorizationUrl" (Json.jstr "N/A")
              pure (acc2 ++ ["- " ++ fkv.1 ++ ": " ++ pyStr authJ]))
            (a2 ++ ["**OAuth2 Flows:**"])
        else pure a2
      else pure a2)
    ["# Authentication & Security"]
  .ok (joinSep "\\n" parts)

/-- Python `", ".join(xs)` where every element must be a string. -/
def pyJoinStrs (sep : String) (xs : List Json) : Except PyErr String := do
  let strs ← xs.foldlM
    (fun (acc : List String) x =>
      match x with
      | .jstr s => .ok (acc ++ [s])
      | _ => .error (.typeError "sequence item: expected str instance"))
    []
  .ok (joinSep sep strs)

/-- Embedded `_format_endpoint_content`. -/
def formatEndpointContent (path method : String) (details : Json) :
    Except PyErr String := do
  let p0 := ["# " ++ pyUpper method ++ " " ++ path]
  let summaryJ ← pyGet1 details "summary"
  let p1 := if summaryJ.truthy then p0 ++ ["## Summary\\n" ++ pyStr summaryJ] else p0
  let descJ ← pyGet1 details "description"
  let p2 := if descJ.truthy then p1 ++ ["## Description\\n" ++ pyStr descJ] else p1
  let tagsJ ← pyGetD details "tags" (Json.jarr [])
  let p3 ←
    if tagsJ.truthy then do
      let elems ← pyIter tagsJ
      let joined ← pyJoinStrs ", " elems
      pure (p2 ++ ["**Tags:** " ++ joined])
    else pure p2
  let opIdJ ← pyGet1 details "operationId"
  let p4 := if opIdJ.truthy then p3 ++ ["**Operation ID:** " ++ pyStr opIdJ] else p3
  let deprJ ← pyGet1 details "deprecated"
  let p5 := if deprJ.truthy then p4 ++ ["**⚠️ DEPRECATED**"] else p4
  let params ← pyGetD details "parameters" (Json.jarr [])
  let p6 ←
    if params.truthy then do
      let elems ← pyIter params
      elems.foldlM
        (fun acc param => do
          let nameJ ← pyGetD param "name" (Json.jstr "Unknown")
          let inJ ← pyGetD param "in" (Json.jstr "Unknown")
          let descJ ← pyGetD param "description" (Json.jstr "No description")
          let reqJ ← pyGet1 param "required"
          let schemaJ ← pyGetD param "schema" (Json.jobj [])
          let typJ ← pyGetD schemaJ "type" (Json.jstr "Unknown")
          pure (acc ++ ["- **" ++ pyStr nameJ ++ "** (" ++ pyStr inJ ++ "): " ++
            pyStr descJ ++ " - Type: " ++ pyStr typJ ++
            (if reqJ.truthy then " [Required]" else "")]))
        (p5 ++ ["## Parameters"])
    else pure p5
  let reqBody ← pyGetD details "requestBody" (Json.jobj [])
  let p7 ←
    if reqBody.truthy then do
      let a1 := p6 ++ ["## Request Body"]
      let descJ ← pyGet1 reqBody "description"
      let a2 := if descJ.truthy then a1 ++ [pyStr descJ] else a1
      let contentJ ← pyGetD reqBody "content" (Json.jobj [])
      let cts ← pyKeys contentJ
      pure (if cts.isEmpty then a2
            else a2 ++ ["**Content Types:** " ++ joinSep ", " cts])
    else pure p6
  let responses ← pyGetD details "responses" (Json.jobj [])
  let p8 ←
    if responses.truthy then do
      let items ← pyItems responses
      items.foldlM
        (fun acc kv => do
          let descJ ← pyGetD kv.2 "description" (Json.jstr "No description")
          let a1 := acc ++ ["- **" ++ kv.1 ++ "**: " ++ pyStr descJ]
          let contentJ ← pyGetD kv.2 "content" (Json.jobj [])
          let cts ← pyKeys contentJ
          pure (if cts.isEmpty then a1
                else a1 ++ ["  - Content Types: " ++ joinSep ", " cts]))
        (p7 ++ ["## Responses"])
    else pure p7
  .ok (joinSep "\\n\\n" p8)

/-- Embedded `_format_schema_content`. -/
def formatSchemaContent (schemaName : String) (schemaDef : Json) :
    Except PyErr String := do
  let p0 := ["# Schema: " ++ schemaName]
  let descJ ← pyGet1 schemaDef "description"
  let p1 := if descJ.truthy then p0 ++ ["## Description\\n" ++ pyStr descJ] else p0
  let typJ ← pyGet1 schemaDef "type"
  let p2 := if typJ.truthy then p1 ++ ["**Type:** " ++ pyStr typJ] else p1
  let props ← pyGetD schemaDef "properties" (Json.jobj [])
  let p3 ←
    if props.truthy then do
      let requiredJ ← pyGetD schemaDef "required" (Json.jarr [])
      let reqList ← pyIter requiredJ
      let items ← pyItems props
      items.foldlM
        (fun acc kv => do
          let ptypJ ← pyGetD kv.2 "type" (Json.jstr "Unknown")
          let pdescJ ← pyGetD kv.2 "description" (Json.jstr "No description")
          let reqMark :=
            if reqList.any (fun r => r == Json.jstr kv.1) then " [Required]" else ""
          pure (acc ++ ["- **" ++ kv.1 ++ "** (" ++ pyStr ptypJ ++ "): " ++
            pyStr pdescJ ++ reqMark]))
        (p2 ++ ["## Properties"])
    else pure p2
  let p4 ←
    if typJ == Json.jstr "array" then do
      let hasItems ← pyContains schemaDef "items"
      if hasItems then do
        let itemsDef ← pyGetD schemaDef "items" (Json.jobj [])
        let hasRef ← pyContains itemsDef "$ref"
        if hasRef then do
          let refJ ← pyGetD itemsDef "$ref" (Json.jstr "")
          let refName := ((pyStr refJ).splitOn "/").getLastD ""
          pure (p3 ++ ["**Array Items:** " ++ refName])
        else do
          let ityJ ← pyGetD itemsDef "type" (Json.jstr "Unknown")
          pure (p3 ++ ["**Array Items Type:** " ++ pyStr ityJ])
      else pure p3
    else pure p3
  let enumJ ← pyGet1 schemaDef "enum"
  let p5 ←
    if enumJ.truthy then do
      let elems ← pyIter enumJ
      pure (p4 ++ ["**Possible Values:** " ++ joinSep ", " (elems.map pyStr)])
    else pure p4
  .ok (joinSep "\\n\\n" p5)

/-- HTTP verbs recognised for endpoint documents. -/
def httpVerbs : List String :=
  ["GET", "POST", "PUT", "DELETE", "PATCH", "OPTIONS", "HEAD"]

/-- Info document of `_extract_from_openapi_spec` (appended first; all of
its inputs are computed before any later section is touched). -/
def extractInfoDoc (selfUrl : String) (spec : Json) (vi : SwVersionInfo) :
    Except PyErr Document := do
  let version := vi.version
  let vstr := pyStr version
  let info ← pyGetD spec "info" (Json.jobj [])
  let titleJ ← pyGetD info "title" (Json.jstr "API Documentation")
  let infoContent ← formatApiInfo info spec
  let apiVersion ← pyGet1 info "version"
  let contactJ ← pyGet1 info "contact"
  let licenseJ ← pyGet1 info "license"
  let serversMeta ← pyGetD spec "servers" (Json.jarr [])
  mkDocument (selfUrl ++ "#" ++ vstr ++ "#info")
    (pyStr titleJ ++ " (v" ++ vstr ++ ")") infoContent vi.url "openapi_info"
    [("version", .json version), ("api_version", .json apiVersion),
     ("contact", .json contactJ), ("license", .json licenseJ),
     ("servers", .json serversMeta), ("source_type", .str "openapi_spec")]

/-- Later sections of `_extract_from_openapi_spec`: optional
servers/security documents, one document per (path, verb), one per named
schema, in source order. -/
def extractRestDocs (selfUrl : String) (spec : Json)
    (vi : SwVersionInfo) : Except PyErr (List Document) := do
  let version := vi.version
  let vstr := pyStr version
  let serversJ ← pyGetD spec "servers" (Json.jarr [])
  let serversDocs ←
    if serversJ.truthy then do
      let serverContent ← formatServerInfo serversJ
      let d ← mkDocument (selfUrl ++ "#" ++ vstr ++ "#servers")
        ("API Servers (v" ++ vstr ++ ")") serverContent vi.url "openapi_servers"
        [("version", .json version), ("servers", .json serversJ)]
      pure [d]
    else pure []
  let components ← pyGetD spec "components" (Json.jobj [])
  let securitySchemes ← pyGetD components "securitySchemes" (Json.jobj [])
  let securityDocs ←
    if securitySchemes.truthy then do
      let securityContent ← formatSecurityInfo securitySchemes
      let keys ← pyKeys securitySchemes
      let d ← mkDocument (selfUrl ++ "#" ++ vstr ++ "#security")
        ("Authentication & Security (v" ++ vstr ++ ")") securityContent vi.url
        "openapi_security"
        [("version", .json version), ("security_schemes", .listStr keys)]
      pure [d]
    else pure []
  let paths ← pyGetD spec "paths" (Json.jobj [])
  let pathItems ← pyItems paths
  let endpointDocs ← pathItems.foldlM
    (fun (acc : List Document) pm => do
      let methodItems ← pyItems pm.2
      methodItems.foldlM
        (fun acc2 md =>
          if httpVerbs.contains (pyUpper md.1) then do
            let content ← formatEndpointContent pm.1 md.1 md.2
            let tagsJ ← pyGetD md.2 "tags" (Json.jarr [])
            let opIdJ ← pyGet1 md.2 "operationId"
            let deprJ ← pyGetD md.2 "deprecated" (Json.jbool false)
            let d ← mkDocument
              (selfUrl ++ "#" ++ vstr ++ "#" ++ pyUpper md.1 ++ "_" ++ pm.1)
              (pyUpper md.1 ++ " " ++ pm.1 ++ " (v" ++ vstr ++ ")") content vi.url
              "openapi_endpoint"
              [("version", .json version), ("path", .str pm.1),
               ("method", .str (pyUpper md.1)), ("tags", .json tagsJ),
               ("operationId", .json opIdJ), ("deprecated", .json deprJ)]
            pure (acc2 ++ [d])
          else pure acc2)
        acc)
    []
  let schemas ← pyGetD components "schemas" (Json.jobj [])
  let schemaItems ← pyItems schemas
  let schemaDocs ← schemaItems.foldlM
    (fun (acc : List Document) kv => do
      let content ← formatSchemaContent kv.1 kv.2
      let typJ ← pyGet1 kv.2 "type"
      let d ← mkDocument (selfUrl ++ "#" ++ vstr ++ "#schema_" ++ kv.1)
        ("Schema: " ++ kv.1 ++ " (v" ++ vstr ++ ")") content vi.url "openapi_schema"
        [("version", .json version), ("schema_name", .str kv.1),
         ("schema_type", .json typJ)]
      pure (acc ++ [d]))
    []
  .ok (serversDocs ++ securityDocs ++ endpointDocs ++ schemaDocs)

/-- Embedded `_extract_from_openapi_spec`: the info document first, then
the later sections.  Document construction validates `doc_type` against
the `DocumentType` enum (see `mkDocument`). -/
def extractFromOpenapiSpec (selfUrl : String) (spec : Json)
    (vi : SwVersionInfo) : Except PyErr (List Document) := do
  let infoDoc ← extractInfoDoc selfUrl spec vi
  let rest ← extractRestDocs selfUrl spec vi
  .ok (infoDoc :: rest)

/-- BeautifulSoup view of a non-JSON documentation page (inputs of
`_extract_from_html`): the title text and the visible text after
script/style removal. -/
structure HtmlPage where
  title : Option String
  textContent : String
  deriving Repr

/-- Split on newline characters, accumulating the current line. -/
def splitOnNl : List Char → List Char → List (List Char)
  | [], cur => if cur.isEmpty then [] else [cur.reverse]
  | c :: rest, cur =>
    if c = Char.ofNat 10 then cur.reverse :: splitOnNl rest []
    else splitOnNl rest (c :: cur)

/-- Python `str.splitlines` for the `\n`/`\r`/`\r\n` terminators (no
trailing empty line): normalise terminators, then split. -/
def splitLinesAux (cs : List Char) (cur : List Char) : List (List Char) :=
  splitOnNl (replaceCr (replaceCrlf cs)) cur

/-- Embedded `_extract_from_html` (again the source's literal `\n` join
separator is reproduced). -/
def extractFromHtml (selfUrl : String) (page : HtmlPage) (vi : SwVersionInfo) :
    Except PyErr (List Document) := do
  let vstr := pyStr vi.version
  let titleText :=
    match page.title with
    | some t => pyStripS t
    | none => "API Documentation (v" ++ vstr ++ ")"
  let lines := (splitLinesAux page.textContent.data []).map
    (fun l => (pyStripL l).asString)
  let textContent := joinSep "\\n" (lines.filter (fun l => l ≠ ""))
  let d ← mkDocument (selfUrl ++ "#" ++ vstr ++ "#html") titleText textContent
    vi.url "swagger_html"
    [("version", .json vi.version), ("extracted_from", .str "html"),
     ("source_type", .str "html_documentation")]
  .ok [d]

/-- Embedded `SwaggerConnector.extract_documents_for_version`: fetch the
version URL, decompose a JSON body as an OpenAPI spec, fall back to the
HTML page otherwise; any exception yields the empty list. -/
def swExtractForVersion (selfUrl : String) (fetch : Except String String)
    (page : HtmlPage) (vi : SwVersionInfo) : List Document :=
  match (do
    let content ← match fetch with
      | .ok c => pure c
      | .error e => Except.error (PyErr.exc e)
    match jsonLoads content with
    | some spec => extractFromOpenapiSpec selfUrl spec vi
    | none => extractFromHtml selfUrl page vi : Except PyErr (List Document)) with
  | .ok docs => docs
  | .error _ => []

/-!  Connector registry (`backend/app/connectors/registry.py`), the
vector-store sink (`backend/app/vector/chroma_service.py`, modelled at its
interface as a per-chatbot batch store keyed by chunk id) and the
orchestrator (`backend/app/connectors/ingestion_service.py`).

`ingest_documentation` works over an arbitrary registered connector; a
connector is modelled by the outcome of its `get_document_source_info`
and its `extract_documents_for_version` function.  The result of the
initial `analyze_documentation_source` call is likewise an input (its
detector part is embedded above). -/

/-- Association-list lookup (Python `dict.get`). -/
def lookupAssoc {α : Type} : List (String × α) → String → Option α
  | [], _ => none
  | (k, v) :: rest, key => if k = key then some v else lookupAssoc rest key

/-- Outcome of `BaseConnector.get_document_source_info` for one
connector. -/
structure SourceInfoM where
  title : String
  description : Option String
  versions : List SwVersionInfo

/-- A registered connector: its class name, its source-info outcome, and
its per-version extraction behaviour. -/
structure ConnectorM where
  name : String
  sourceInfo : Except String SourceInfoM
  extract : SwVersionInfo → Except String (List Document)

/-- Embedded `ConnectorRegistry` state: name→connector and
type→name maps. -/
structure RegistryM where
  connectors : List (String × ConnectorM)
  typeMappings : List (String × String)

/-- Embedded `get_connector_by_name`. -/
def getConnectorByName (r : RegistryM) (n : String) : Option ConnectorM :=
  lookupAssoc r.connectors n

/-- Hard-coded fallback table of `get_connector_for_type`. -/
def fallbackMappings : List (String × String) :=
  [("swagger_ui", "swagger"), ("openapi_spec", "swagger"), ("redoc", "swagger"),
   ("postman_docs", "postman"), ("postman_collection", "postman"),
   ("github_wiki", "github"), ("gitbook", "markdown"), ("notion", "generic"),
   ("confluence", "generic"), ("generic_docs", "generic"),
   ("generic_html", "generic")]

/-- Embedded `get_connector_for_type`: primary map first (its hit is
returned even when the named connector is missing), else the fallback
table. -/
def getConnectorForType (r : RegistryM) (t : String) : Option ConnectorM :=
  match lookupAssoc r.typeMappings t with
  | some n => lookupAssoc r.connectors n
  | none =>
    match lookupAssoc fallbackMappings t with
    | some n => lookupAssoc r.connectors n
    | none => none

/-- One stored chunk entry of the vector sink. -/
structure VChunkEntry where
  chatbot : String
  entryId : String
  content : String
  deriving Repr, DecidableEq

/-- The vector sink, modelled at its interface
(`add_documents` / `get_document_by_id` / `clear_chatbot_data`) as a
batch store of chunk entries per chatbot. -/
structure VStore where
  entries : List VChunkEntry
  deriving Repr, DecidableEq

/-- Empty store. -/
def vstoreEmpty : VStore := { entries := [] }

/-- Embedded `ChromaVectorService.add_documents`: an empty batch succeeds
without touching the store; otherwise all chunk entries are stored. -/
def storeAddDocuments (s : VStore) (cid : String) (chunks : List DocumentChunk) :
    VStore × Bool :=
  if chunks.isEmpty then (s, true)
  else ({ entries := s.entries ++
          chunks.map (fun c => { chatbot := cid, entryId := c.id, content := c.content }) },
        true)

/-- Embedded `get_document_by_id`: exact-id lookup among the stored
entries of one chatbot. -/
def storeGetById (s : VStore) (cid docId : String) : Option VChunkEntry :=
  s.entries.find? (fun e => e.chatbot = cid && e.entryId = docId)

/-- Embedded `clear_chatbot_data`: recreate the chatbot's collection. -/
def storeClear (s : VStore) (cid : String) : VStore :=
  { entries := s.entries.filter (fun e => e.chatbot ≠ cid) }

/-- Statistics dict returned by `_store_documents`. -/
structure StoreStats where
  total_documents : Nat
  total_chunks : Nat
  stored_count : Nat
  chunks_stored : Nat
  skipped_count : Nat
  error_count : Nat
  force_reingestion : Bool
  deriving Repr, DecidableEq

/-- Embedded `IngestionService._store_documents`: optional wipe, chunk
everything with the default processor, walk the documents updating only
the stored/skipped counters, then hand the full chunk batch to the sink.
A processor exception escapes (with the store as mutated so far). -/
def storeDocuments (store : VStore) (chatbotId : String) (docs : List Document)
    (force : Bool) : Except PyErr StoreStats × VStore :=
  let s1 := if force then storeClear store chatbotId else store
  match processDocuments procCfgDefault docs with
  | .error e => (.error e, s1)
  | .ok allChunks =>
    let counts := docs.foldl
      (fun (acc : Nat × Nat) d =>
        if !force && (storeGetById s1 chatbotId d.id).isSome then (acc.1, acc.2 + 1)
        else (acc.1 + 1, acc.2))
      (0, 0)
    let (s2, success) := storeAddDocuments s1 chatbotId allChunks
    let stats : StoreStats :=
      if success then
        { total_documents := docs.length, total_chunks := allChunks.length,
          stored_count := counts.1, chunks_stored := allChunks.length,
          skipped_count := counts.2, error_count := 0, force_reingestion := force }
      else
        { total_documents := docs.length, total_chunks := allChunks.length,
          stored_count := 0, chunks_stored := 0,
          skipped_count := counts.2, error_count := docs.length,
          force_reingestion := force }
    (.ok stats, s2)

/-- Result of `analyze_documentation_source`, an input of `ingest` (the
detector it composes is embedded separately above). -/
structure AnalysisM where
  status : String
  detected_type : String
  error : Option String
  metadata : List (String × PyVal)

/-- Per-version stats entry of the `version_stats` dict. -/
structure VStat where
  documents_count : Nat
  status : String
  error : Option String := none
  deriving Repr

/-- Insertion-ordered upsert into the `version_stats` dict (keys are the
version values carried by `VersionInfo`). -/
def upsertStats : List (Json × VStat) → Json → VStat → List (Json × VStat)
  | [], k, v => [(k, v)]
  | (k0, v0) :: rest, k, v =>
    if k0 == k then (k0, v) :: rest else (k0, v0) :: upsertStats rest k v

/-- Result dict of `ingest_documentation` (absent keys are `none`). -/
structure IngestResult where
  chatbot_id : String
  url : String
  status : String
  error : Option String := none
  detected_type : Option String := none
  connector_used : Option String := none
  versions_processed : Option (List Json) := none
  version_stats : Option (List (Json × VStat)) := none
  total_documents : Option Nat := none
  ingestion_stats : Option StoreStats := none
  metadata : Option (List (String × PyVal)) := none
  deriving Repr

/-- Version tagging applied to each extracted document when the source
exposes more than one version. -/
def tagDoc (vi : SwVersionInfo) (d : Document) : Document :=
  let m1 :=
    if hasMetaKey d.metadata "version" then d.metadata
    else setMeta d.metadata "version" (.json vi.version)
  let m2 := setMeta m1 "version_url" (.str vi.url)
  let m3 := setMeta m2 "is_default_version" (.bool vi.is_default)
  { d with metadata := m3 }

/-- Per-version extraction loop of `ingest_documentation`: one version's
failure only records an error stat and does not abort the others. -/
def extractLoop (conn : ConnectorM) (multi : Bool) (vps : List SwVersionInfo) :
    List Document × List (Json × VStat) :=
  vps.foldl
    (fun acc vi =>
      match conn.extract vi with
      | .ok docs =>
        let docs2 := if multi then docs.map (tagDoc vi) else docs
        (acc.1 ++ docs2,
         upsertStats acc.2 vi.version
           { documents_count := docs.length, status := "success" })
      | .error e =>
        (acc.1,
         upsertStats acc.2 vi.version
           { documents_count := 0, status := "error", error := some e }))
    ([], [])

/-- Error message of the version-not-found failure. -/
def verNotFoundMsg (v : String) (si : SourceInfoM) : String :=
  "Version \x27" ++ v ++ "\x27 not found. Available versions: " ++
    pyRepr (Json.jarr (si.versions.map (fun x => x.version)))

/-- Connector phase of `ingest_documentation`, from
`get_document_source_info` on. -/
def ingestWithConnector (analysis : AnalysisM) (url chatbotId : String)
    (version : Option String) (force : Bool) (store : VStore)
    (conn : ConnectorM) : Except String IngestResult × VStore :=
  match conn.sourceInfo with
  | .error e => (.error e, store)
  | .ok si =>
    let vps :=
      match version with
      | some v => si.versions.filter (fun vi => vi.version == Json.jstr v)
      | none => si.versions
    if version.isSome && vps.isEmpty then
      (.ok { chatbot_id := chatbotId, url := url, status := "failed",
             error := some (verNotFoundMsg (version.getD "") si) }, store)
    else
      let (allDocs, stats) := extractLoop conn (1 < si.versions.length) vps
      if allDocs.isEmpty then
        (.ok { chatbot_id := chatbotId, url := url, status := "failed",
               error := some "No documents extracted from any version",
               version_stats := some stats }, store)
      else
        match storeDocuments store chatbotId allDocs force with
        | (.error e, s2) => (.error e.render, s2)
        | (.ok istats, s2) =>
          (.ok { chatbot_id := chatbotId, url := url, status := "success",
                 detected_type := some analysis.detected_type,
                 connector_used := some conn.name,
                 versions_processed := some (stats.map Prod.fst),
                 version_stats := some stats,
                 total_documents := some allDocs.length,
                 ingestion_stats := some istats,
                 metadata := some (mergeMeta
                   [("source_title", .str si.title),
                    ("source_description",
                     match si.description with
                     | some d => .str d
                     | none => .pynone)]
                   analysis.metadata) }, s2)

/-- Body of `ingest_documentation` before its outer `except Exception`
handler: analysis gate, connector resolution (an unknown explicit
override returns a structured failed result), then the connector
phase. -/
def ingestBody (reg : RegistryM) (analysis : AnalysisM) (url chatbotId : String)
    (connectorType : Option String) (version : Option String) (force : Bool)
    (store : VStore) : Except String IngestResult × VStore :=
  if analysis.status ≠ "supported" then
    (.ok { chatbot_id := chatbotId, url := url, status := "failed",
           error := some (analysis.error.getD "Unsupported documentation type") },
     store)
  else
    match connectorType with
    | some n =>
      (match getConnectorByName reg n with
       | none =>
         (.ok { chatbot_id := chatbotId, url := url, status := "failed",
                error := some ("Unknown connector type: " ++ n) }, store)
       | some conn => ingestWithConnector analysis url chatbotId version force store conn)
    | none =>
      match getConnectorForType reg analysis.detected_type with
      | none =>
        (.error "\x27NoneType\x27 object is not callable", store)
      | some conn => ingestWithConnector analysis url chatbotId version force store conn

/-- Embedded `IngestionService.ingest_documentation`: any exception is
recovered into a failed result (store mutations made before the raise
persist). -/
def ingestDocumentation (reg : RegistryM) (analysis : AnalysisM)
    (url chatbotId : String) (connectorType : Option String)
    (version : Option String) (force : Bool) (store : VStore) :
    IngestResult × VStore :=
  match ingestBody reg analysis url chatbotId connectorType version force store with
  | (.ok r, s) => (r, s)
  | (.error e, s) =>
    ({ chatbot_id := chatbotId, url := url, status := "failed", error := some e }, s)

/-!  Predicates and concrete inputs used by the theorem statements. -/

/-- Key presence at the top level of a JSON object. -/
def hasTopKey (j : Json) (k : String) : Bool :=
  match j with
  | .jobj fs => (lookupField fs k).isSome
  | _ => false

/-- Shape condition of the spec-version derivation: the body is a JSON
object whose `info` entry, when present, is an object (otherwise the
`.get` chain raises `AttributeError`). -/
def specInfoOk : Json → Bool
  | .jobj fs =>
    match lookupField fs "info" with
    | none => true
    | some (.jobj _) => true
    | some _ => false
  | _ => false

/-- Shape condition of the detector's `paths_count` computation: the
`paths` entry, when present, must support `len` (object, array or
string). -/
def pathsShapeOk : Json → Bool
  | .jobj fs =>
    match lookupField fs "paths" with
    | none => true
    | some (.jobj _) => true
    | some (.jarr _) => true
    | some (.jstr _) => true
    | some _ => false
  | _ => false

/-- Version derived from a spec object: `info.version`, defaulting to
`"1.0.0"` when absent. -/
def infoVersionOf : Json → Json
  | .jobj fs =>
    (match (lookupField fs "info").getD (Json.jobj []) with
     | .jobj ifs => (lookupField ifs "version").getD (Json.jstr "1.0.0")
     | _ => Json.jstr "1.0.0")
  | _ => Json.jstr "1.0.0"

/-- Metadata dict attached to the spec-derived version. -/
def specMetaOf : Json → List (String × PyVal)
  | .jobj fs =>
    let ifs :=
      match (lookupField fs "info").getD (Json.jobj []) with
      | .jobj ifs => ifs
      | _ => []
    [("title", .json ((lookupField ifs "title").getD Json.null)),
     ("description", .json ((lookupField ifs "description").getD Json.null)),
     ("spec_version", .json ((lookupField fs "openapi").getD
       ((lookupField fs "swagger").getD Json.null)))]
  | _ => []

/-- No element of the list carries the default flag. -/
def tailFlagsOff (l : List SwVersionInfo) : Prop :=
  ∀ v ∈ l, v.is_default = false

/-- Invariant of every version list the connector can return: the
`is_default` flag is set exactly on the first element. -/
def defaultFlagsOk : List SwVersionInfo → Prop
  | [] => True
  | x :: t => x.is_default = true ∧ tailFlagsOff t

/-- Info document produced for the empty JSON object. -/
def c10infoDoc : Document :=
  { id := "u#latest#info", title := "API Documentation (vlatest)", content := "",
    url := "u", doc_type := "openapi_info",
    metadata :=
      [("version", .json (Json.jstr "latest")), ("api_version", .json Json.null),
       ("contact", .json Json.null), ("license", .json Json.null),
       ("servers", .json (Json.jarr [])), ("source_type", .str "openapi_spec")] }

/-- Empty BeautifulSoup view (a page without the queried elements). -/
def soup0 : Soup := { title := none, optionTexts := [], scriptSpecUrls := [], navLinkTexts := [] }

/-- Connector context for a page without version cues and with all
common-path probes failing. -/
def ctx0 : UiCtx :=
  { url := "u", origin := "http://h", joinUrl := fun _ p => p,
    options := [], scripts := [], probe := fun _ => false }

/-- Connector context whose page carries two version-selector options. -/
def ctx2 : UiCtx :=
  { url := "u", origin := "http://h", joinUrl := fun _ p => p,
    options := [{ text := "1.0", href := none, value := none },
                { text := "2.0", href := none, value := none }],
    scripts := [], probe := fun _ => false }

/-- Empty HTML page view. -/
def page0 : HtmlPage := { title := none, textContent := "" }

/-- The synthetic `latest` version record. -/
def vlatest : SwVersionInfo :=
  { version := Json.jstr "latest", url := "u", is_default := true, metadata := [] }

/-- Body of the C4 witness fetch. -/
def c4body : String := "\x7b\"info\": \x7b\"version\": \"2.1\"\x7d\x7d"

/-- Parse of the C4 witness body. -/
def c4spec : Json := Json.jobj [("info", Json.jobj [("version", Json.jstr "2.1")])]

/-- Body whose top-level `openapi` key coexists with a non-object `info`. -/
def c7body : String := "\x7b\"openapi\": 1, \"info\": 5\x7d"

/-- Parse of `c7body`. -/
def c7spec : Json := Json.jobj [("openapi", Json.jnum "1"), ("info", Json.jnum "5")]

/-- A short document (its cleaned content fits one chunk). -/
def c5doc : Document :=
  { id := "d", title := "t", content := "hello", url := "u", doc_type := "html",
    metadata := [] }

/-- First `_store_documents` run of the re-ingestion scenario. -/
def c5run1 : Except PyErr StoreStats × VStore :=
  storeDocuments vstoreEmpty "c" [c5doc] false

/-- Second run against the already-populated store, `force` off. -/
def c5run2 : Except PyErr StoreStats × VStore :=
  storeDocuments c5run1.2 "c" [c5doc] false

/-- Third run with `force` on. -/
def c5run3 : Except PyErr StoreStats × VStore :=
  storeDocuments c5run2.2 "c" [c5doc] true

/-- A document whose cleaned content exceeds the default chunk size. -/
def bigDoc : Document :=
  { id := "big", title := "t", content := String.mk (List.replicate 1001 'a'),
    url := "u", doc_type := "openapi_info", metadata := [] }

/-- Version `v1` of the two-version source. -/
def c3v1 : SwVersionInfo :=
  { version := Json.jstr "v1", url := "u1", is_default := true, metadata := [] }

/-- Version `v2` of the two-version source. -/
def c3v2 : SwVersionInfo :=
  { version := Json.jstr "v2", url := "u2", is_default := false, metadata := [] }

/-- Connector whose extraction raises for `v1` and yields one long
document for `v2`. -/
def c3conn : ConnectorM :=
  { name := "SwaggerConnector",
    sourceInfo := .ok { title := "T", description := none, versions := [c3v1, c3v2] },
    extract := fun vi => if vi.url = "u1" then .error "boom" else .ok [bigDoc] }

/-- Registry holding `c3conn` under the `swagger` name. -/
def c3reg : RegistryM :=
  { connectors := [("swagger", c3conn)], typeMappings := [] }

/-- Supported analysis outcome for a structured-spec source. -/
def analysisSupported : AnalysisM :=
  { status := "supported", detected_type := "openapi_spec", error := none,
    metadata := [] }

/-- Empty registry (no connector names registered). -/
def c8reg : RegistryM := { connectors := [], typeMappings := [] }

/-!  Helper lemmas shared by several claims. -/

/-- Inversion of a successful `Except` bind. -/
theorem bindOk {α β : Type} {x : Except PyErr α} {f : α → Except PyErr β} {b : β}
    (h : x >>= f = .ok b) : ∃ a, x = .ok a ∧ f a = .ok b := by
  cases x with
  | ok a => exact ⟨a, rfl, h⟩
  | error e => simp [Bind.bind, Except.bind] at h

/-- Successful `mkDocument` carries the requested document type. -/
theorem mkDocument_type {i t c u dt : String} {m : List (String × PyVal)}
    {d : Document} (h : mkDocument i t c u dt m = .ok d) : d.doc_type = dt := by
  unfold mkDocument at h
  split at h
  · injection h with h2
    subst h2
    rfl
  · exact Except.noConfusion h

/-- Every list starts with itself. -/
theorem listStartsWith_self (s : List Char) : listStartsWith s s = true := by
  induction s with
  | nil => rfl
  | cons c cs ih => simp [listStartsWith, ih]

/-- A suffix is an infix. -/
theorem listHasInfix_suffix (pre s : List Char) : listHasInfix (pre ++ s) s = true := by
  induction pre with
  | nil =>
    cases s with
    | nil => rfl
    | cons c cs => simp [listHasInfix, listStartsWith_self]
  | cons c pre ih => simp [listHasInfix, ih]

/-- C1: For text whose cleaned form is longer than `chunkSize` (with the
claimed configuration constraints), the chunker does not produce a
covering chunk sequence at all: `_split_text` raises `TypeError` on its
first pass (`start <= chunks` compares an int to a list), so
`chunk_document` propagates the exception. -/
theorem c1_split_raises (cfg : ProcCfg) (doc : Document)
    (h1 : 0 < cfg.chunkOverlap) (h2 : cfg.chunkOverlap < cfg.chunkSize)
    (h3 : cfg.chunkSize < (cleanContentL doc.content.data).length) :
    chunkDocument cfg doc =
      .error (.typeError
        "\x27<=\x27 not supported between instances of \x27int\x27 and \x27list\x27") := by
  have hlen : ¬ (cleanContentL doc.content.data).length ≤ cfg.chunkSize :=
    not_le.mpr h3
  have h0 : 0 < (cleanContentL doc.content.data).length :=
    lt_of_le_of_lt (Nat.zero_le _) h3
  unfold chunkDocument splitText splitStep
  simp [hlen, h0]

/-- Witness for C1 at a concrete configuration and document. -/
theorem c1_split_raises_witness :
    (0 : Nat) < 2 ∧ 2 < 5 ∧
    5 < (cleanContentL ("abcdefgh" : String).data).length ∧
    chunkDocument { chunkSize := 5, chunkOverlap := 2 }
      { id := "d", title := "t", content := "abcdefgh", url := "u",
        doc_type := "html", metadata := [] } =
      .error (.typeError
        "\x27<=\x27 not supported between instances of \x27int\x27 and \x27list\x27") :=
  ⟨by decide, by decide, by decide,
   c1_split_raises { chunkSize := 5, chunkOverlap := 2 }
     { id := "d", title := "t", content := "abcdefgh", url := "u",
       doc_type := "html", metadata := [] }
     (by decide) (by decide) (by decide)⟩

/-- C2: For text whose cleaned form has length at most `chunkSize`,
chunking yields exactly one chunk whose content is the cleaned form. -/
theorem c2_single_chunk (cfg : ProcCfg) (doc : Document)
    (h : (cleanContentL doc.content.data).length ≤ cfg.chunkSize) :
    ∃ c : DocumentChunk,
      chunkDocument cfg doc = .ok [c] ∧ c.content = cleanContentS doc.content := by
  refine ⟨mkChunk cfg doc (cleanContentL doc.content.data).length 0
    (cleanContentL doc.content.data), ?_, rfl⟩
  unfold chunkDocument splitText
  simp [h, List.enum]

/-- Witness for C2 at a concrete document. -/
theorem c2_single_chunk_witness :
    (cleanContentL ("  hello \t  world  " : String).data).length ≤ 1000 ∧
    ∃ c : DocumentChunk,
      chunkDocument procCfgDefault
        { id := "d", title := "t", content := "  hello \t  world  ", url := "u",
          doc_type := "html", metadata := [] } = .ok [c] ∧
      c.content = cleanContentS "  hello \t  world  " :=
  ⟨by decide,
   c2_single_chunk procCfgDefault
     { id := "d", title := "t", content := "  hello \t  world  ", url := "u",
       doc_type := "html", metadata := [] }
     (by decide)⟩

set_option maxRecDepth 10000

/-- C3: The per-version isolation is implemented (v1's failure is
recorded per-version and v2 is still extracted), but the claimed overall
`success` result is not reached whenever v2's documents exceed the default
chunk size: the chunker raises `TypeError` (the C1 slip) inside
`_store_documents` and the whole run fails. -/
theorem c3_isolation_bug :
    c3conn.extract c3v1 = .error "boom" ∧
    c3conn.extract c3v2 = .ok [bigDoc] ∧
    1000 < (cleanContentL bigDoc.content.data).length ∧
    (extractLoop c3conn true [c3v1, c3v2]).2 =
      [(Json.jstr "v1", { documents_count := 0, status := "error", error := some "boom" }),
       (Json.jstr "v2", { documents_count := 1, status := "success", error := none })] ∧
    (ingestDocumentation c3reg analysisSupported "u" "c" none none false vstoreEmpty).1 =
      { chatbot_id := "c", url := "u", status := "failed",
        error := some
          "\x27<=\x27 not supported between instances of \x27int\x27 and \x27list\x27" } := by
  refine ⟨rfl, rfl, by decide, ?_, ?_⟩ <;> rfl

/-- C5: Re-running `_store_documents` with `force_reingestion=false`
against a target that already stores the document's chunk does not skip
anything: the existence check queries the document id (never a stored
chunk id) and the full chunk batch is handed to the sink again, so the
same chunk id is stored twice; the `force_reingestion=true` run clears
prior data first. -/
theorem c5_skip_bug :
    (storeGetById c5run1.2 "c" "d#chunk_0").isSome = true ∧
    (c5run2.2.entries.filter (fun e => e.entryId = "d#chunk_0")).length = 2 ∧
    c5run2.1 = .ok { total_documents := 1, total_chunks := 1, stored_count := 1,
                     chunks_stored := 1, skipped_count := 0, error_count := 0,
                     force_reingestion := false } ∧
    c5run3.2.entries =
      [{ chatbot := "c", entryId := "d#chunk_0", content := "hello" }] := by
  refine ⟨?_, ?_, ?_, ?_⟩ <;> rfl

/-- Case analysis of `_detect_versions_from_spec`: malformed JSON yields
the empty list, an object body with object-or-absent `info` yields the one
derived version, any other parse result raises (to be recovered by the
caller). -/
theorem specVersionCases (url body : String) :
    (jsonLoads body = none → detectVersionsFromSpec url body = .ok []) ∧
    (∀ spec, jsonLoads body = some spec →
      (specInfoOk spec = true →
        detectVersionsFromSpec url body =
          .ok [{ version := infoVersionOf spec, url := url, is_default := true,
                 metadata := specMetaOf spec }]) ∧
      (specInfoOk spec = false →
        ∃ e, detectVersionsFromSpec url body = .error e)) := by
  constructor
  · intro h
    unfold detectVersionsFromSpec
    rw [h]
  · intro spec hs
    constructor
    · intro hok
      unfold detectVersionsFromSpec
      rw [hs]
      cases spec with
      | jobj fs =>
        cases hinfo : lookupField fs "info" with
        | none =>
          simp [pyGetD, pyGet1, infoVersionOf, specMetaOf, hinfo,
            Bind.bind, Except.bind, lookupField]
        | some v =>
          cases v with
          | jobj ifs =>
            simp [pyGetD, pyGet1, infoVersionOf, specMetaOf, hinfo,
              Bind.bind, Except.bind]
          | null => simp [specInfoOk, hinfo] at hok
          | jbool b => simp [specInfoOk, hinfo] at hok
          | jnum lex => simp [specInfoOk, hinfo] at hok
          | jstr s => simp [specInfoOk, hinfo] at hok
          | jarr xs => simp [specInfoOk, hinfo] at hok
      | null => simp [specInfoOk] at hok
      | jbool b => simp [specInfoOk] at hok
      | jnum lex => simp [specInfoOk] at hok
      | jstr s => simp [specInfoOk] at hok
      | jarr xs => simp [specInfoOk] at hok
    · intro hbad
      unfold detectVersionsFromSpec
      rw [hs]
      cases spec with
      | jobj fs =>
        cases hinfo : lookupField fs "info" with
        | none => simp [specInfoOk, hinfo] at hbad
        | some v =>
          cases v with
          | jobj ifs => simp [specInfoOk, hinfo] at hbad
          | null =>
            simp only [pyGetD, pyGet1, hinfo, Option.getD_some, Bind.bind, Except.bind]
            exact ⟨_, rfl⟩
          | jbool b =>
            simp only [pyGetD, pyGet1, hinfo, Option.getD_some, Bind.bind, Except.bind]
            exact ⟨_, rfl⟩
          | jnum lex =>
            simp only [pyGetD, pyGet1, hinfo, Option.getD_some, Bind.bind, Except.bind]
            exact ⟨_, rfl⟩
          | jstr s =>
            simp only [pyGetD, pyGet1, hinfo, Option.getD_some, Bind.bind, Except.bind]
            exact ⟨_, rfl⟩
          | jarr xs =>
            simp only [pyGetD, pyGet1, hinfo, Option.getD_some, Bind.bind, Except.bind]
            exact ⟨_, rfl⟩
      | null =>
        simp only [pyGetD, Bind.bind, Except.bind]
        exact ⟨_, rfl⟩
      | jbool b =>
        simp only [pyGetD, Bind.bind, Except.bind]
        exact ⟨_, rfl⟩
      | jnum lex =>
        simp only [pyGetD, Bind.bind, Except.bind]
        exact ⟨_, rfl⟩
      | jstr s =>
        simp only [pyGetD, Bind.bind, Except.bind]
        exact ⟨_, rfl⟩
      | jarr xs =>
        simp only [pyGetD, Bind.bind, Except.bind]
        exact ⟨_, rfl⟩

/-- The UI discovery chain always ends with at least one version (the
fallback guarantees it). -/
theorem ifEmpty_ne_nil (x : SwVersionInfo) (l : List SwVersionInfo) :
    (if l.isEmpty = true then [x] else l) ≠ [] := by
  split
  · simp
  · rename_i h
    intro hl
    rw [hl] at h
    simp at h

theorem detectVersionsFromUi_ne_nil (ctx : UiCtx) : detectVersionsFromUi ctx ≠ [] := by
  unfold detectVersionsFromUi
  dsimp only
  exact ifEmpty_ne_nil _ _

/-- C4: Version discovery never raises, and on fetch errors (or a JSON
object body whose `info` is malformed) it returns the single synthetic
`latest` version; a JSON-served object body yields exactly the one
version derived from `info.version` (default `"1.0.0"`); but a JSON-served
body that fails to parse yields the empty sequence, and a non-JSON
content type takes the (never-empty) UI discovery chain. -/
theorem c4_discovery_cases (ctx : UiCtx) (fetch : Except String RespM) :
    (∀ e, fetch = .error e →
      swDetectVersions ctx fetch =
        [{ version := Json.jstr "latest", url := ctx.url, is_default := true,
           metadata := [] }]) ∧
    (∀ resp, fetch = .ok resp →
      infixCheck "application/json" (pyLower resp.contentType) = true →
      ((jsonLoads resp.body = none → swDetectVersions ctx fetch = []) ∧
       (∀ spec, jsonLoads resp.body = some spec →
         (specInfoOk spec = true →
           swDetectVersions ctx fetch =
             [{ version := infoVersionOf spec, url := ctx.url, is_default := true,
                metadata := specMetaOf spec }]) ∧
         (specInfoOk spec = false →
           swDetectVersions ctx fetch =
             [{ version := Json.jstr "latest", url := ctx.url, is_default := true,
                metadata := [] }])))) ∧
    (∀ resp, fetch = .ok resp →
      infixCheck "application/json" (pyLower resp.contentType) = false →
      swDetectVersions ctx fetch = detectVersionsFromUi ctx ∧
      swDetectVersions ctx fetch ≠ []) := by
  refine ⟨?_, ?_, ?_⟩
  · intro e he
    subst he
    simp [swDetectVersions, swDetectVersionsBody, Bind.bind, Except.bind]
  · intro resp hr hct
    subst hr
    have hbody : swDetectVersionsBody ctx (.ok resp) =
        detectVersionsFromSpec ctx.url resp.body := by
      simp [swDetectVersionsBody, Bind.bind, Except.bind, pure, Except.pure, hct]
    refine ⟨?_, ?_⟩
    · intro hn
      unfold swDetectVersions
      rw [hbody, (specVersionCases ctx.url resp.body).1 hn]
    · intro spec hs
      refine ⟨?_, ?_⟩
      · intro hok
        unfold swDetectVersions
        rw [hbody, (((specVersionCases ctx.url resp.body).2 spec hs).1 hok)]
      · intro hbad
        obtain ⟨e, he⟩ := ((specVersionCases ctx.url resp.body).2 spec hs).2 hbad
        unfold swDetectVersions
        rw [hbody, he]
  · intro resp hr hct
    subst hr
    have hbody : swDetectVersionsBody ctx (.ok resp) =
        .ok (detectVersionsFromUi ctx) := by
      simp [swDetectVersionsBody, Bind.bind, Except.bind, pure, Except.pure, hct]
    unfold swDetectVersions
    rw [hbody]
    exact ⟨rfl, detectVersionsFromUi_ne_nil ctx⟩

/-- Counterexample for C4 as stated: a JSON-served body that fails to
parse makes version discovery return the empty sequence (neither the
synthetic `latest` version nor any spec-derived version). -/
theorem c4_empty_counterexample :
    swDetectVersions ctx0
      (.ok { contentType := "application/json", body := "\x7b" }) = [] := rfl

/-- Witness for C4 at a concrete JSON body. -/
theorem c4_discovery_cases_witness :
    jsonLoads c4body = some c4spec ∧ specInfoOk c4spec = true ∧
    infoVersionOf c4spec = Json.jstr "2.1" ∧
    swDetectVersions ctx0 (.ok { contentType := "application/json", body := c4body }) =
      [{ version := infoVersionOf c4spec, url := ctx0.url, is_default := true,
         metadata := specMetaOf c4spec }] :=
  ⟨rfl, rfl, rfl,
   (((c4_discovery_cases ctx0
       (.ok { contentType := "application/json", body := c4body })).2.1 _ rfl
       rfl).2 c4spec rfl).1 rfl⟩

/-- C6: Detection never raises; any exception (fetch failure included) is
recovered into the unknown result carrying the error message — but a body
that fails to parse under a JSON content type is recovered locally with
empty metadata and no error note. -/
theorem c6_unknown_cases (url : String) (fetch : Except String RespM) (soup : Soup) :
    (∀ e, fetch = .error e →
      detectDocumentType url fetch soup =
        { type := "unknown", versions := [], metadata := [("error", .str e)],
          confidence := 0 }) ∧
    (∀ resp, fetch = .ok resp →
      infixCheck "application/json" (pyLower resp.contentType) = true →
      jsonLoads resp.body = none →
      detectDocumentType url fetch soup = unknownEmptyResult) := by
  constructor
  · intro e he
    subst he
    simp [detectDocumentType, detectDocumentTypeE, Bind.bind, Except.bind, PyErr.render]
  · intro resp hr hct hn
    subst hr
    have hE : detectDocumentTypeE url (.ok resp) soup = .ok unknownEmptyResult := by
      simp [detectDocumentTypeE, Bind.bind, Except.bind, pure, Except.pure, hct,
        detectJsonApi, hn]
    simp [detectDocumentType, hE]

/-- Counterexample for C6 as stated: a parse failure under a JSON content
type yields the unknown result with empty metadata — no error note. -/
theorem c6_no_error_note_counterexample :
    detectDocumentType "u"
      (.ok { contentType := "application/json", body := "\x7b" }) soup0 =
      unknownEmptyResult ∧
    unknownEmptyResult.metadata = [] := ⟨rfl, rfl⟩

/-- Witness for C6 at concrete fetch-failure and parse-failure inputs. -/
theorem c6_unknown_cases_witness :
    detectDocumentType "u" (.error "boom") soup0 =
      { type := "unknown", versions := [], metadata := [("error", .str "boom")],
        confidence := 0 } ∧
    detectDocumentType "u2"
      (.ok { contentType := "application/json", body := "not json" }) soup0 =
      unknownEmptyResult :=
  ⟨(c6_unknown_cases "u" (.error "boom") soup0).1 "boom" rfl,
   (c6_unknown_cases "u2"
     (.ok { contentType := "application/json", body := "not json" }) soup0).2
     _ rfl rfl rfl⟩

/-- A true `specInfoOk` on an object yields an object `info` value. -/
theorem specInfoOk_obj {fs : List (String × Json)}
    (h : specInfoOk (Json.jobj fs) = true) :
    ∃ ifs, (lookupField fs "info").getD (Json.jobj []) = Json.jobj ifs := by
  cases hinfo : lookupField fs "info" with
  | none => exact ⟨[], by simp [hinfo]⟩
  | some v =>
    cases v with
    | jobj ifs => exact ⟨ifs, by simp [hinfo]⟩
    | null => simp [specInfoOk, hinfo] at h
    | jbool b => simp [specInfoOk, hinfo] at h
    | jnum lex => simp [specInfoOk, hinfo] at h
    | jstr s => simp [specInfoOk, hinfo] at h
    | jarr xs => simp [specInfoOk, hinfo] at h

/-- A true `pathsShapeOk` on an object makes `len(paths)` succeed. -/
theorem pathsShapeOk_len {fs : List (String × Json)}
    (h : pathsShapeOk (Json.jobj fs) = true) :
    ∃ n, pyLen ((lookupField fs "paths").getD (Json.jobj [])) = .ok n := by
  cases hp : lookupField fs "paths" with
  | none => exact ⟨0, by simp [hp, pyLen]⟩
  | some v =>
    cases v with
    | jobj pfs => exact ⟨pfs.length, by simp [hp, pyLen]⟩
    | jarr xs => exact ⟨xs.length, by simp [hp, pyLen]⟩
    | jstr s => exact ⟨s.length, by simp [hp, pyLen]⟩
    | null => simp [pathsShapeOk, hp] at h
    | jbool b => simp [pathsShapeOk, hp] at h
    | jnum lex => simp [pathsShapeOk, hp] at h

/-- C7: A JSON-served body parsing to an object with a top-level
`openapi` key is detected as `openapi_spec` with confidence 0.95 ≥ 0.9,
provided the `info` entry (when present) is an object and the `paths`
entry (when present) has a length — otherwise the recognizer raises
internally and detection degrades to `unknown` (see the
counterexample). -/
theorem c7_openapi_confidence (url : String) (resp : RespM) (soup : Soup)
    (data : Json)
    (hct : infixCheck "application/json" (pyLower resp.contentType) = true)
    (hloads : jsonLoads resp.body = some data)
    (hkey : hasTopKey data "openapi" = true)
    (hinfo : specInfoOk data = true)
    (hpaths : pathsShapeOk data = true) :
    (detectDocumentType url (.ok resp) soup).type = "openapi_spec" ∧
    (0.9 : ℚ) ≤ (detectDocumentType url (.ok resp) soup).confidence := by
  cases data with
  | jobj fs =>
    obtain ⟨ov, hov⟩ := Option.isSome_iff_exists.mp (by simpa [hasTopKey] using hkey)
    obtain ⟨ifs, hifs⟩ := specInfoOk_obj hinfo
    obtain ⟨n, hlen⟩ := pathsShapeOk_len hpaths
    constructor
    · simp [detectDocumentType, detectDocumentTypeE, detectJsonApi, hct, hloads,
        pyContains, pyGetD, hov, hifs, hlen, Bind.bind, Except.bind, pure, Except.pure]
    · simp [detectDocumentType, detectDocumentTypeE, detectJsonApi, hct, hloads,
        pyContains, pyGetD, hov, hifs, hlen, Bind.bind, Except.bind, pure, Except.pure]
      norm_num
  | null => simp [hasTopKey] at hkey
  | jbool b => simp [hasTopKey] at hkey
  | jnum lex => simp [hasTopKey] at hkey
  | jstr s => simp [hasTopKey] at hkey
  | jarr xs => simp [hasTopKey] at hkey

/-- Counterexample for C7 as stated: a valid JSON body with a top-level
`openapi` key but a non-object `info` makes detection return `unknown`
(the recognizer's `.get` chain raises and the outer handler recovers). -/
theorem c7_shape_counterexample :
    jsonLoads c7body = some c7spec ∧
    hasTopKey c7spec "openapi" = true ∧
    (detectDocumentType "u"
      (.ok { contentType := "application/json", body := c7body }) soup0).type =
      "unknown" := ⟨rfl, rfl, rfl⟩

/-- Witness for C7 at a concrete spec body. -/
theorem c7_openapi_confidence_witness :
    jsonLoads "\x7b\"openapi\": \"3.0.0\"\x7d" =
      some (Json.jobj [("openapi", Json.jstr "3.0.0")]) ∧
    (detectDocumentType "u"
      (.ok { contentType := "application/json",
             body := "\x7b\"openapi\": \"3.0.0\"\x7d" }) soup0).type =
      "openapi_spec" ∧
    (0.9 : ℚ) ≤
      (detectDocumentType "u"
        (.ok { contentType := "application/json",
               body := "\x7b\"openapi\": \"3.0.0\"\x7d" }) soup0).confidence :=
  ⟨rfl,
   (c7_openapi_confidence "u"
     { contentType := "application/json", body := "\x7b\"openapi\": \"3.0.0\"\x7d" }
     soup0 (Json.jobj [("openapi", Json.jstr "3.0.0")])
     rfl rfl rfl rfl rfl).1,
   (c7_openapi_confidence "u"
     { contentType := "application/json", body := "\x7b\"openapi\": \"3.0.0\"\x7d" }
     soup0 (Json.jobj [("openapi", Json.jstr "3.0.0")])
     rfl rfl rfl rfl rfl).2⟩

/-- C8 (amended): An explicit connector-type override naming no
registered connector fails immediately — the store is untouched and the
requested name is contained in the error message — but as a returned
structured `failed` result, not a thrown error. -/
theorem c8_unknown_override (reg : RegistryM) (analysis : AnalysisM)
    (url chatbotId n : String) (version : Option String) (force : Bool)
    (store : VStore)
    (hsup : analysis.status = "supported")
    (hmiss : getConnectorByName reg n = none) :
    ingestDocumentation reg analysis url chatbotId (some n) version force store =
      ({ chatbot_id := chatbotId, url := url, status := "failed",
         error := some ("Unknown connector type: " ++ n) }, store) ∧
    infixCheck n ("Unknown connector type: " ++ n) = true := by
  constructor
  · simp [ingestDocumentation, ingestBody, hsup, hmiss]
  · show listHasInfix ("Unknown connector type: " ++ n).data n.data = true
    rw [String.data_append]
    exact listHasInfix_suffix _ _

/-- Counterexample for C8 as stated: the unregistered-override failure is
an `.ok` structured result already in the pre-handler body of
`ingest_documentation` — nothing is thrown. -/
theorem c8_structured_counterexample :
    (ingestBody c8reg analysisSupported "u" "c" (some "nope") none false
      vstoreEmpty).1 =
      .ok { chatbot_id := "c", url := "u", status := "failed",
            error := some "Unknown connector type: nope" } := rfl

/-- Witness for C8 at a concrete override. -/
theorem c8_unknown_override_witness :
    ingestDocumentation c8reg analysisSupported "u" "c" (some "nope") none false
      vstoreEmpty =
      ({ chatbot_id := "c", url := "u", status := "failed",
         error := some "Unknown connector type: nope" }, vstoreEmpty) ∧
    infixCheck "nope" "Unknown connector type: nope" = true :=
  c8_unknown_override c8reg analysisSupported "u" "c" "nope" none false
    vstoreEmpty rfl rfl

/-- Appending with `is_default := acc.isEmpty` preserves the
first-is-default invariant. -/
theorem defaultFlagsOk_append {l : List SwVersionInfo} (v : Json) (u : String)
    (m : List (String × PyVal)) (h : defaultFlagsOk l) :
    defaultFlagsOk (appendVI l v u m) := by
  cases l with
  | nil =>
    refine ⟨rfl, ?_⟩
    intro w hw
    simp [appendVI] at hw
  | cons x t =>
    obtain ⟨hx, ht⟩ := h
    refine ⟨hx, ?_⟩
    intro w hw
    rcases List.mem_append.mp hw with hw | hw
    · exact ht w hw
    · simp at hw
      subst hw
      simp [List.isEmpty]

/-- Strategy 1 preserves the invariant. -/
theorem uiStep1_flags (ctx : UiCtx) (os : List OptElem) :
    ∀ acc, defaultFlagsOk acc → defaultFlagsOk (uiStep1 ctx acc os) := by
  induction os with
  | nil => intro acc h; simpa [uiStep1] using h
  | cons o os ih =>
    intro acc h
    simp only [uiStep1]
    split
    · exact ih _ (defaultFlagsOk_append _ _ _ h)
    · exact ih _ h

/-- Strategy 2's inner URL loop preserves the invariant. -/
theorem uiStep2Urls_flags (ctx : UiCtx) (us : List String) :
    ∀ acc, defaultFlagsOk acc → defaultFlagsOk (uiStep2Urls ctx acc us) := by
  induction us with
  | nil => intro acc h; simpa [uiStep2Urls] using h
  | cons u us ih =>
    intro acc h
    simp only [uiStep2Urls]
    split
    · exact ih _ h
    · exact ih _ (defaultFlagsOk_append _ _ _ h)

/-- Strategy 2 preserves the invariant. -/
theorem uiStep2_flags (ctx : UiCtx) (ss : List ScriptElem) :
    ∀ acc, defaultFlagsOk acc → defaultFlagsOk (uiStep2 ctx acc ss) := by
  induction ss with
  | nil => intro acc h; simpa [uiStep2] using h
  | cons s ss ih =>
    intro acc h
    simp only [uiStep2]
    split
    · exact ih _ (uiStep2Urls_flags ctx s.specMatches acc h)
    · exact ih _ h

/-- Strategy 3 preserves the invariant. -/
theorem uiStep3_flags (ctx : UiCtx) (ps : List String) :
    ∀ acc, defaultFlagsOk acc → defaultFlagsOk (uiStep3 ctx acc ps) := by
  induction ps with
  | nil => intro acc h; simpa [uiStep3] using h
  | cons p ps ih =>
    intro acc h
    simp only [uiStep3]
    split
    · exact ih _ (defaultFlagsOk_append _ _ _ h)
    · exact ih _ h

/-- The fallback append preserves the invariant. -/
theorem fallback_flags (u : String) (l : List SwVersionInfo) (h : defaultFlagsOk l) :
    defaultFlagsOk (if l.isEmpty = true then
      [{ version := Json.jstr "latest", url := u, is_default := true,
         metadata := [("source", PyVal.str "fallback")] }] else l) := by
  split
  · exact ⟨rfl, fun w hw => by simp at hw⟩
  · exact h

/-- The UI discovery chain marks exactly its first version as default. -/
theorem detectVersionsFromUi_flags (ctx : UiCtx) :
    defaultFlagsOk (detectVersionsFromUi ctx) := by
  unfold detectVersionsFromUi
  dsimp only
  have h2 : defaultFlagsOk (uiStep2 ctx (uiStep1 ctx [] ctx.options) ctx.scripts) :=
    uiStep2_flags ctx ctx.scripts _ (uiStep1_flags ctx ctx.options [] trivial)
  apply fallback_flags
  split
  · exact uiStep3_flags ctx commonPaths _ h2
  · exact h2

/-- Every successful result of the discovery body satisfies the
invariant. -/
theorem swDetectVersionsBody_flags (ctx : UiCtx) (fetch : Except String RespM)
    (vs : List SwVersionInfo) (h : swDetectVersionsBody ctx fetch = .ok vs) :
    defaultFlagsOk vs := by
  unfold swDetectVersionsBody at h
  cases fetch with
  | error e => simp [Bind.bind, Except.bind] at h
  | ok resp =>
    simp only [Bind.bind, Except.bind, pure, Except.pure] at h
    split at h
    · unfold detectVersionsFromSpec at h
      cases hl : jsonLoads resp.body with
      | none =>
        rw [hl] at h
        injection h with h
        subst h
        trivial
      | some spec =>
        rw [hl] at h
        rcases bindOk h with ⟨a1, h1, h⟩
        rcases bindOk h with ⟨a2, h2, h⟩
        rcases bindOk h with ⟨a3, h3, h⟩
        rcases bindOk h with ⟨a4, h4, h⟩
        rcases bindOk h with ⟨a5, h5, h⟩
        rcases bindOk h with ⟨a6, h6, h⟩
        injection h with h
        subst h
        exact ⟨rfl, fun w hw => by simp at hw⟩
    · injection h with h
      subst h
      exact detectVersionsFromUi_flags ctx

/-- Every list `detect_versions` returns satisfies the invariant. -/
theorem swDetectVersions_flags (ctx : UiCtx) (fetch : Except String RespM) :
    defaultFlagsOk (swDetectVersions ctx fetch) := by
  unfold swDetectVersions
  cases hb : swDetectVersionsBody ctx fetch with
  | error e => exact ⟨rfl, fun w hw => by simp at hw⟩
  | ok vs => exact swDetectVersionsBody_flags ctx fetch vs hb

/-- C9: Over any version-discovery result with more than one version, at
most one `VersionInfo` has `is_default = true`, and no entry after the
first discovered one is defaulted. -/
theorem c9_default_unique (ctx : UiCtx) (fetch : Except String RespM)
    (_h : 1 < (swDetectVersions ctx fetch).length) :
    ((swDetectVersions ctx fetch).filter (fun v => v.is_default)).length ≤ 1 ∧
    (swDetectVersions ctx fetch).tail.all (fun v => !v.is_default) = true := by
  have hf := swDetectVersions_flags ctx fetch
  cases hv : swDetectVersions ctx fetch with
  | nil => simp
  | cons x t =>
    rw [hv] at hf
    obtain ⟨hx, ht⟩ := hf
    constructor
    · have htf : t.filter (fun v => v.is_default) = [] :=
        List.filter_eq_nil_iff.mpr (fun a ha => by simp [ht a ha])
      simp [List.filter_cons, hx, htf]
    · simp only [List.tail_cons, List.all_eq_true]
      intro v hv2
      simp [ht v hv2]

/-- Witness for C9 at a page exposing two selector versions. -/
theorem c9_default_unique_witness :
    1 < (swDetectVersions ctx2 (.ok { contentType := "text/html", body := "x" })).length ∧
    (((swDetectVersions ctx2 (.ok { contentType := "text/html", body := "x" })).filter
        (fun v => v.is_default)).length ≤ 1 ∧
     (swDetectVersions ctx2 (.ok { contentType := "text/html", body := "x" })).tail.all
        (fun v => !v.is_default) = true) :=
  ⟨by decide,
   c9_default_unique ctx2 (.ok { contentType := "text/html", body := "x" }) (by decide)⟩

/-- Successful construction of the info document yields doc_type
`openapi_info`. -/
theorem extractInfoDoc_type {selfUrl : String} {spec : Json} {vi : SwVersionInfo}
    {d : Document} (h : extractInfoDoc selfUrl spec vi = .ok d) :
    d.doc_type = "openapi_info" := by
  unfold extractInfoDoc at h
  dsimp only at h
  repeat rcases bindOk h with ⟨_, _, h⟩
  exact mkDocument_type h

/-- C10 (amended): Whenever spec decomposition succeeds on a JSON body,
the extracted list is non-empty with the info document (doc_type
`openapi_info`) first — in particular exactly one document for the empty
JSON object (see the witness) — but non-object JSON bodies, or specs
whose later sections raise (e.g. a `servers` section, whose synthesized
document type the `Document` model rejects), yield the empty list. -/
theorem c10_info_first (selfUrl : String) (page : HtmlPage) (vi : SwVersionInfo)
    (body : String) (spec : Json)
    (hloads : jsonLoads body = some spec) :
    ∀ docs, extractFromOpenapiSpec selfUrl spec vi = .ok docs →
      swExtractForVersion selfUrl (.ok body) page vi = docs ∧
      docs ≠ [] ∧ ∃ d rest, docs = d :: rest ∧ d.doc_type = "openapi_info" := by
  intro docs hd
  refine ⟨?_, ?_, ?_⟩
  · simp [swExtractForVersion, hloads, hd, Bind.bind, Except.bind, pure, Except.pure]
  · unfold extractFromOpenapiSpec at hd
    rcases bindOk hd with ⟨d0, hd0, hd⟩
    rcases bindOk hd with ⟨rest, hrest, hd⟩
    injection hd with hd
    subst hd
    simp
  · unfold extractFromOpenapiSpec at hd
    rcases bindOk hd with ⟨d0, hd0, hd⟩
    rcases bindOk hd with ⟨rest, hrest, hd⟩
    injection hd with hd
    subst hd
    exact ⟨d0, rest, rfl, extractInfoDoc_type hd0⟩

/-- Counterexample for C10 as stated: a body that parses as JSON but not
as an object makes extraction return the empty list (no info document at
all). -/
theorem c10_nonobject_counterexample :
    jsonLoads "[]" = some (Json.jarr []) ∧
    swExtractForVersion "u" (.ok "[]") page0 vlatest = [] := ⟨rfl, rfl⟩

/-- Witness for C10 at the empty JSON object. -/
theorem c10_info_first_witness :
    extractFromOpenapiSpec "u" (Json.jobj []) vlatest = .ok [c10infoDoc] ∧
    (swExtractForVersion "u" (.ok "\x7b\x7d") page0 vlatest = [c10infoDoc] ∧
     ([c10infoDoc] : List Document) ≠ [] ∧
     ∃ d rest, ([c10infoDoc] : List Document) = d :: rest ∧
       d.doc_type = "openapi_info") :=
  ⟨rfl,
   c10_info_first "u" page0 vlatest "\x7b\x7d" (Json.jobj []) rfl [c10infoDoc] rfl⟩

end Docet
